import Mathlib

/-!
Verification of the VCP (Volatility Contraction Pattern) detection engine of the
stock-quant repository: a shallow embedding of
`core/analysis/indicators/vcp.py`, `core/analysis/indicators/vcp_plus.py` and
`core/strategy/indicator/pattern/vcp_indicator.py`, together with theorems about
the extrema locator, the contraction analyzer, the Stage-2 trend classifier, the
pattern scorer and the per-bar buy/sell signal logic.

Modelling conventions:
* Python/numpy floats are idealised as rationals (`ℚ`); a pandas `NaN` entry is
  `none` in `Option ℚ` (named `OptQ` below).  Comparisons against `NaN` are
  `False` in pandas, hence `none` compares false here.
* pandas rolling windows with `min_periods = window` produce `none` for the
  leading entries, mirroring the `NaN` head of the series.
* a Python exception (out-of-range `iloc`) is modelled by an `Option`-valued
  result of the whole evaluation where it can actually occur.
* `numpy` division by zero would produce `±inf`/`nan`; over `ℚ` the Lean
  convention `x / 0 = 0` applies.  No theorem below depends on the value that a
  division by zero produces, only on which list entries get appended.
-/

/-- A possibly-missing float value (a pandas `NaN` is `none`). -/
abbrev OptQ := Option ℚ

/-- Float `>` where either side may be `NaN`: pandas comparisons with `NaN` are false. -/
def oGt (a b : OptQ) : Bool :=
  match a, b with
  | some x, some y => decide (y < x)
  | _, _ => false

/-- Float `<` with `NaN` comparing false. -/
def oLt (a b : OptQ) : Bool := oGt b a

/-- Float `>=` with `NaN` comparing false. -/
def oGe (a b : OptQ) : Bool :=
  match a, b with
  | some x, some y => decide (y ≤ x)
  | _, _ => false

/-- Float `<=` against a plain float, `NaN` comparing false (used for `max_c <= limit`). -/
def oLe (a : OptQ) (c : ℚ) : Bool :=
  match a with
  | some v => decide (v ≤ c)
  | none => false

/-- `NaN`-propagating subtraction. -/
def oSub (a b : OptQ) : OptQ :=
  match a, b with
  | some x, some y => some (x - y)
  | _, _ => none

/-- `NaN`-propagating multiplication by a scalar (`series * 1.3` etc.). -/
def oMul (a : OptQ) (c : ℚ) : OptQ := a.map (· * c)

/-- pandas `Series.tail(n)`: the last `n` entries (all of them when `n ≥ length`). -/
def tailN (n : ℕ) (l : List α) : List α := l.drop (l.length - n)

/-- Python `l[i]` with an `Int` index as pandas `iloc` uses it: a negative index
counts from the end, an out-of-range access raises (here: `none`). -/
def iloc (l : List α) (i : Int) : Option α :=
  if 0 ≤ i then l[i.toNat]?
  else if i.natAbs ≤ l.length then l[l.length - i.natAbs]? else none

/-- Last element of a `NaN`-able series, for positions guarded to exist in the
source (`iloc[-1]` on a nonempty series); an empty list yields `NaN`. -/
def lastO (l : List OptQ) : OptQ := l.getLastD none

/-- `numpy` `max` of a window (windows in the sources are nonempty). -/
def npMax : List ℚ → ℚ
  | [] => 0
  | x :: xs => xs.foldl max x

/-- `numpy` `min` of a window. -/
def npMin : List ℚ → ℚ
  | [] => 0
  | x :: xs => xs.foldl min x

/-- pandas `rolling(window = w, min_periods = w).mean()`. -/
def rollingMean (w : ℕ) (l : List ℚ) : List OptQ :=
  (List.range l.length).map fun i =>
    if 1 ≤ w ∧ w ≤ i + 1 then
      some ((((l.drop (i + 1 - w)).take w).foldl (· + ·) 0) / (w : ℚ))
    else none

/-- pandas `rolling(window = w, min_periods = w).min()`. -/
def rollingMin (w : ℕ) (l : List ℚ) : List OptQ :=
  (List.range l.length).map fun i =>
    if 1 ≤ w ∧ w ≤ i + 1 then some (npMin ((l.drop (i + 1 - w)).take w)) else none

/-- pandas `rolling(window = w, min_periods = w).max()`. -/
def rollingMax (w : ℕ) (l : List ℚ) : List OptQ :=
  (List.range l.length).map fun i =>
    if 1 ≤ w ∧ w ≤ i + 1 then some (npMax ((l.drop (i + 1 - w)).take w)) else none

/-- pandas `rolling(window = w, min_periods = w).apply(f, raw = True)` over a series
with possible `NaN` entries: `min_periods` counts non-`NaN` observations, and with
`min_periods = window` the function is applied exactly when the whole window is
present. -/
def rollingApplyOpt (f : List ℚ → ℚ) (w : ℕ) (l : List OptQ) : List OptQ :=
  (List.range l.length).map fun i =>
    if 1 ≤ w ∧ w ≤ i + 1 then
      let s := (l.drop (i + 1 - w)).take w
      if s.all Option.isSome then some (f s.reduceOption) else none
    else none

/-- Python `round` at integer precision: round-half-to-even (banker's rounding). -/
def roundHalfEven (q : ℚ) : ℤ :=
  let n := ⌊q⌋
  let r := q - n
  if r < 1 / 2 then n
  else if 1 / 2 < r then n + 1
  else if 2 ∣ n then n else n + 1

/-- Python `round(x, 2)` idealised over `ℚ`. -/
def round2 (q : ℚ) : ℚ := (roundHalfEven (q * 100) : ℚ) / 100

/-- The `mode` string argument of `_local_extrema` ("max" / "min"). -/
inductive ExtremaMode
  | max
  | min
deriving DecidableEq

/-- `vcp.py` `_local_extrema`: every position `i` with `order ≤ i < length - order`
whose value equals the extremum of the closed window `[i - order, i + order]`
(ties: every qualifying position is recorded). -/
def local_extrema (arr : List ℚ) (order : ℕ) (mode : ExtremaMode) : List ℕ :=
  if arr.length < order * 2 + 1 then []
  else
    (List.range' order (arr.length - order - order)).filter fun i =>
      let window := (arr.drop (i - order)).take (order + order + 1)
      let center := arr.getD i 0
      match mode with
      | ExtremaMode.max => decide (center = npMax window)
      | ExtremaMode.min => decide (center = npMin window)

/-- `vcp_plus.py` `_local_extrema` differs from the `vcp.py` one only in using
`np.nanmax`/`np.nanmin`, which coincide with `max`/`min` on the `NaN`-free price
columns modelled here. -/
def local_extrema_plus (arr : List ℚ) (order : ℕ) (mode : ExtremaMode) : List ℕ :=
  local_extrema arr order mode

/-- The cursor walk of `_contractions` (`vcp.py`), after both index lists have been
reversed: while both cursors are live, a low later than the current high records a
depth and advances both, otherwise only the high cursor advances. -/
def contractionsAux (highs lows : List ℚ) : List ℕ → List ℕ → List ℚ
  | _, [] => []
  | [], _ :: _ => []
  | li :: ls, hj :: hs =>
    if hj < li then
      round2 ((highs.getD hj 0 - lows.getD li 0) / highs.getD hj 0 * 100)
        :: contractionsAux highs lows ls hs
    else contractionsAux highs lows (li :: ls) hs

/-- `vcp.py` `_contractions`: most-recent-first percentage depths. -/
def contractions (highs lows : List ℚ) (local_high local_low : List ℕ) : List ℚ :=
  contractionsAux highs lows local_low.reverse local_high.reverse

/-- The cursor walk of `_contractions` (`vcp_plus.py`): same walk, but a pair whose
high price is zero is skipped (nothing appended) while both cursors still advance. -/
def contractionsPlusAux (highs lows : List ℚ) : List ℕ → List ℕ → List ℚ
  | _, [] => []
  | [], _ :: _ => []
  | li :: ls, hj :: hs =>
    if hj < li then
      (if highs.getD hj 0 ≠ 0 then
        [round2 ((highs.getD hj 0 - lows.getD li 0) / highs.getD hj 0 * 100)]
      else []) ++ contractionsPlusAux highs lows ls hs
    else contractionsPlusAux highs lows (li :: ls) hs

/-- `vcp_plus.py` `_contractions`. -/
def contractions_plus (highs lows : List ℚ) (local_high local_low : List ℕ) : List ℚ :=
  contractionsPlusAux highs lows local_low.reverse local_high.reverse

/-- Derived view of the same cursor walk: the (high index, low index) pairs it
visits in recording steps, in order. -/
def pairsWalk : List ℕ → List ℕ → List (ℕ × ℕ)
  | _, [] => []
  | [], _ :: _ => []
  | li :: ls, hj :: hs =>
    if hj < li then (hj, li) :: pairsWalk ls hs else pairsWalk (li :: ls) hs

/-- The pairs recorded by the contraction walk, from the raw (chronological) index
lists. -/
def contractionPairs (local_high local_low : List ℕ) : List (ℕ × ℕ) :=
  pairsWalk local_low.reverse local_high.reverse

/-- The walk "skips" nothing when every comparison of live cursors records a pair. -/
def noSkipWalk : List ℕ → List ℕ → Bool
  | _, [] => true
  | [], _ :: _ => true
  | li :: ls, hj :: hs => decide (hj < li) && noSkipWalk ls hs

/-- The accumulator loop of `_num_contractions` (identical in `vcp.py` and
`vcp_plus.py`): count while each depth strictly exceeds the previous counted one
(seed 0), stop at the first non-increase. -/
def numContractionsAux (new_c : ℚ) : List ℚ → ℕ
  | [] => 0
  | c :: rest => if new_c < c then 1 + numContractionsAux c rest else 0

/-- `_num_contractions`. -/
def num_contractions (contraction : List ℚ) : ℕ := numContractionsAux 0 contraction

/-- `vcp_plus.py` `_trend_value`: least-squares slope of the values against
`x = 1, …, n` (0 for an empty or degenerate window). -/
def trend_value (values : List ℚ) : ℚ :=
  if values = [] then 0
  else
    let y := values
    let n : ℚ := (y.length : ℚ)
    let x := (List.range y.length).map fun i => ((i : ℚ) + 1)
    let summed_x := x.foldl (· + ·) 0
    let summed_y := y.foldl (· + ·) 0
    let summed_x2 := (x.map fun v => v * v).foldl (· + ·) 0
    let summed_xy := ((x.zip y).map fun p => p.1 * p.2).foldl (· + ·) 0
    let numerator := n * summed_xy - summed_x * summed_y
    let denominator := n * summed_x2 - summed_x ^ 2
    if denominator = 0 then 0 else numerator / denominator

/-- An input DataFrame after column resolution: the four required price/volume
columns, plus the two optional columns the extended evaluator looks up
(`_resolve_optional_column`); a column that is absent is `none`. -/
structure Frame where
  close : List ℚ
  high : List ℚ
  low : List ℚ
  volume : List ℚ
  benchmark_close : Option (List ℚ) := none
  rs_rating : Option (List OptQ) := none

/-- `len(df)`: the number of rows. -/
def Frame.len (df : Frame) : ℕ := df.close.length

/-- `vcp.py` `VCPParams` (a frozen dataclass with these defaults). -/
structure VCPParams where
  ma_50_period : ℕ := 50
  ma_150_period : ℕ := 150
  ma_200_period : ℕ := 200
  ma_trend_period : ℕ := 20
  local_extrema_order : ℕ := 10
  min_contractions : ℕ := 2
  max_contractions : ℕ := 4
  max_contraction_depth : ℚ := 50
  min_contraction_depth : ℚ := 15
  min_weeks : ℕ := 2
  lookback_period : ℕ := 252
  vol_short_period : ℕ := 5
  vol_long_period : ℕ := 30

/-- The dictionary `evaluate_vcp` returns. -/
structure VcpResult where
  stage2_pass : Bool
  is_vcp : Bool
  progress : ℚ
  num_contractions : ℕ
  max_contraction : ℚ
  min_contraction : ℚ
deriving DecidableEq

/-- The Stage-2 conjunction of `evaluate_vcp`, in source order: close above the
three moving averages, stacked ordering, positive MA200 slope, and the two
52-week range criteria evaluated on the close. -/
def stage2Basic (close_last : ℚ) (ma50_l ma150_l ma200_l ma_200_slope w52_low w52_high : OptQ) :
    Bool :=
  oGt (some close_last) ma50_l &&
  oGt (some close_last) ma150_l &&
  oGt (some close_last) ma200_l &&
  (oGt ma50_l ma150_l && oGt ma150_l ma200_l) &&
  oGt ma_200_slope (some 0) &&
  oGt (some close_last) (oMul w52_low (13 / 10)) &&
  oGt (some close_last) (oMul w52_high (3 / 4))

/-- The `weeks` value of the duration check: `(lookback - local_high[::-1][num_c - 1]) / 5`. -/
def weeksValue (lookback : ℕ) (local_high : List ℕ) (num_c : ℕ) : ℚ :=
  ((lookback : ℚ) - ((local_high.reverse.getD (num_c - 1) 0 : ℕ) : ℚ)) / 5

/-- The duration (`weeks_ok`) block of `evaluate_vcp`: false unless there is a
valid contraction and enough local highs, otherwise compare the weeks value
against the configured minimum. -/
def weeksOkBasic (params : VCPParams) (lookback : ℕ) (contraction : List ℚ) (num_c : ℕ)
    (local_high : List ℕ) : Bool :=
  if contraction ≠ [] ∧ 1 ≤ num_c ∧ num_c ≤ local_high.length then
    decide ((params.min_weeks : ℚ) ≤ weeksValue lookback local_high num_c)
  else false

/-- `vcp.py` `evaluate_vcp`.  The result is `none` exactly when the Python code
would raise: `lookback = 0` (an empty tail makes `iloc[-1]` fail) or
`ma_trend_period > lookback` (the `ma_200.iloc[-ma_trend_period]` access). -/
def evaluate_vcp (df : Frame) (params : VCPParams) : Option VcpResult :=
  if df.len < max (params.ma_200_period + params.ma_trend_period)
      (params.local_extrema_order * 2 + 1) then
    some ⟨false, false, 0, 0, 0, 0⟩
  else
    let lookback := min df.len params.lookback_period
    let close_tail := tailN lookback df.close
    let high_tail := tailN lookback df.high
    let low_tail := tailN lookback df.low
    let volume_tail := tailN lookback df.volume
    let ma_50 := rollingMean params.ma_50_period close_tail
    let ma_150 := rollingMean params.ma_150_period close_tail
    let ma_200 := rollingMean params.ma_200_period close_tail
    let week_52_low := rollingMin 252 low_tail
    let week_52_high := rollingMax 252 high_tail
    match iloc ma_200 (-1), iloc ma_200 (-(params.ma_trend_period : Int)),
      close_tail.getLast? with
    | some ma200_last, some ma200_back, some close_last =>
      let ma_200_slope := oSub ma200_last ma200_back
      let stage2 := stage2Basic close_last (lastO ma_50) (lastO ma_150) (lastO ma_200)
        ma_200_slope (lastO week_52_low) (lastO week_52_high)
      let highs := high_tail
      let lows := low_tail
      let local_high := local_extrema highs params.local_extrema_order ExtremaMode.max
      let local_low := local_extrema lows params.local_extrema_order ExtremaMode.min
      let contraction :=
        if 2 ≤ local_high.length ∧ 2 ≤ local_low.length then
          contractions highs lows local_high local_low
        else []
      let num_c := if contraction ≠ [] then num_contractions contraction else 0
      let max_c := if 1 ≤ num_c then contraction.getD (num_c - 1) 0 else 0
      let min_c := if 1 ≤ num_c then contraction.getD 0 0 else 0
      let contraction_count_ok :=
        decide (params.min_contractions ≤ num_c ∧ num_c ≤ params.max_contractions)
      let max_depth_ok := decide (max_c ≤ params.max_contraction_depth)
      let min_depth_ok := decide (min_c ≤ params.min_contraction_depth)
      let weeks_ok := weeksOkBasic params lookback contraction num_c local_high
      let vol_ma_short := rollingMean params.vol_short_period volume_tail
      let vol_ma_long := rollingMean params.vol_long_period volume_tail
      let volume_dry_ok := oLt (lastO vol_ma_short) (lastO vol_ma_long)
      let conditions :=
        [stage2, contraction_count_ok, max_depth_ok, min_depth_ok, weeks_ok, volume_dry_ok]
      let progress := ((conditions.countP id : ℕ) : ℚ) / ((conditions.length : ℕ) : ℚ)
      let is_vcp := conditions.all id
      some ⟨stage2, is_vcp, progress, num_c, max_c, min_c⟩
    | _, _, _ => none

/-- `vcp_plus.py` `VCPPlusParams` (defaults as in the dataclass; the two column-name
fields are modelled by the optional `Frame` columns directly). -/
structure VCPPlusParams where
  ma_50_period : ℕ := 50
  ma_150_period : ℕ := 150
  ma_200_period : ℕ := 200
  ma_trend_period : ℕ := 20
  rs_trend_period : ℕ := 20
  week_window : ℕ := 260
  local_extrema_order : ℕ := 10
  min_contractions : ℕ := 2
  max_contractions : ℕ := 4
  max_contraction_depth : ℚ := 50
  min_contraction_depth : ℚ := 15
  min_weeks : ℕ := 2
  vol_short_period : ℕ := 5
  vol_long_period : ℕ := 30
  lookback_period : ℕ := 520
  require_rs_slope : Bool := true
  require_rs_rating : Bool := true
  min_rs_rating : ℤ := 70
  require_consolidation : Bool := true

/-- The mutable state of the `_adjust_local_high_low` walk: two cursors and the two
output lists. -/
structure AdjustState where
  i : ℕ
  j : ℕ
  adjusted_high : List ℕ
  adjusted_low : List ℕ
deriving DecidableEq

/-- A bounded Python `while p: i += 1` advance; the fuel passed by the callers
always exceeds the number of iterations the cursor bound allows. -/
def advanceWhile (p : ℕ → Bool) : ℕ → ℕ → ℕ
  | 0, i => i
  | fuel + 1, i => if p i then advanceWhile p fuel (i + 1) else i

/-- The outer `while` of `_adjust_local_high_low`.  Each iteration strictly
advances `i` or `j` (the first two branches run their inner `while` at least
once), so fuel `|local_high| + |local_low| + 1` suffices for the loop to reach
its exit condition. -/
def adjustLoop (lh ll : List ℕ) : ℕ → AdjustState → AdjustState
  | 0, s => s
  | fuel + 1, s =>
    if s.i < lh.length ∧ s.j < ll.length then
      let hi := lh.getD s.i 0
      let lj := ll.getD s.j 0
      if hi < lj then
        let i' := advanceWhile
          (fun i => decide (i < lh.length) && decide (lh.getD i 0 < lj)) (lh.length + 1) s.i
        let ah := if 0 < i' then s.adjusted_high ++ [lh.getD (i' - 1) 0] else s.adjusted_high
        adjustLoop lh ll fuel ⟨i', s.j, ah, s.adjusted_low⟩
      else if lj < hi then
        let j' := advanceWhile
          (fun j => decide (j < ll.length) && decide (ll.getD j 0 < hi)) (ll.length + 1) s.j
        let al := if 0 < j' then s.adjusted_low ++ [ll.getD (j' - 1) 0] else s.adjusted_low
        adjustLoop lh ll fuel ⟨s.i, j', s.adjusted_high, al⟩
      else adjustLoop lh ll fuel ⟨s.i + 1, s.j + 1, s.adjusted_high, s.adjusted_low⟩
    else s

/-- `vcp_plus.py` `_adjust_local_high_low`: reconcile the raw extrema lists into
alternating high/low indices (main walk plus the two tail fix-up blocks). -/
def adjust_local_high_low (local_high local_low : List ℕ) : List ℕ × List ℕ :=
  if local_high.length = 0 ∨ local_low.length = 0 then ([], [])
  else
    let s := adjustLoop local_high local_low (local_high.length + local_low.length + 1) ⟨0, 0, [], []⟩
    let s :=
      if s.i < local_high.length ∧ s.adjusted_high ≠ [] ∧ 0 < s.j then
        let ah := s.adjusted_high.dropLast
        let i' := advanceWhile
          (fun i => decide (i < local_high.length) &&
            decide (local_low.getD (s.j - 1) 0 < local_high.getD i 0))
          (local_high.length + 1) s.i
        let ah := if 0 < i' then ah ++ [local_high.getD (i' - 1) 0] else ah
        let ah := ah ++ [local_high.getLastD 0]
        let al := s.adjusted_low ++ [local_low.getD (s.j - 1) 0]
        ⟨i', s.j, ah, al⟩
      else s
    let s :=
      if s.j < local_low.length ∧ s.adjusted_low ≠ [] ∧ 0 < s.i then
        let al := s.adjusted_low.dropLast
        let j' := advanceWhile
          (fun j => decide (j < local_low.length) &&
            decide (local_low.getD j 0 < local_high.getD (s.i - 1) 0))
          (local_low.length + 1) s.j
        let al := if 0 < j' then al ++ [local_low.getD (j' - 1) 0] else al
        let al := al ++ [local_low.getLastD 0]
        let ah := s.adjusted_high ++ [local_high.getD (s.i - 1) 0]
        ⟨s.i, j', ah, al⟩
      else s
    (s.adjusted_high, s.adjusted_low)

/-- The `rs_line` of `evaluate_vcp_plus`: `close / benchmark.replace(0, NaN)`. -/
def rsLineOf (close_tail benchmark_tail : List ℚ) : List OptQ :=
  List.zipWith (fun c bv => if bv = 0 then none else some (c / bv)) close_tail benchmark_tail

/-- The `condition_8` (relative-strength slope) series of `evaluate_vcp_plus`:
with a benchmark, the rolling regression slope of the RS line must be strictly
positive; without one the series is all-false; a disabled check overrides the
series with all-true. -/
def condition8Series (params : VCPPlusParams) (close_tail : List ℚ)
    (benchmark_tail : Option (List ℚ)) (n : ℕ) : List Bool :=
  let base :=
    match benchmark_tail with
    | some b =>
      let rs_line := rsLineOf close_tail b
      let rs_slope := rollingApplyOpt trend_value params.rs_trend_period rs_line
      rs_slope.map fun s => oGt s (some 0)
    | none => List.replicate n false
  if params.require_rs_slope = false then List.replicate n true else base

/-- The consolidation (`not yet broken out`) criterion of `evaluate_vcp_plus`:
false by default; with at least one adjusted local high, the latest HIGH must be
strictly below the high at the most recent adjusted local-high index; a disabled
check overrides it to true. -/
def consolidationOk (require_consolidation : Bool) (high_tail : List ℚ)
    (local_high : List ℕ) : Bool :=
  let c :=
    if local_high ≠ [] then
      decide (high_tail.getLastD 0 < high_tail.getD (local_high.getLastD 0) 0)
    else false
  if require_consolidation = false then true else c

/-- The `rs_rating` tail block of `evaluate_vcp_plus`: the rating is the last value
of the column when present; `rs_pass` defaults true, requires the rating to reach
the threshold when the check is required, and fails when required but the column
is absent. -/
def rsRatingPass (params : VCPPlusParams) (rs_tail : Option (List OptQ)) : OptQ × Bool :=
  match rs_tail with
  | some l =>
    let rs_rating := l.getLastD none
    if params.require_rs_rating then
      (rs_rating, rs_rating.isSome && decide ((params.min_rs_rating : ℚ) ≤ rs_rating.getD 0))
    else (rs_rating, true)
  | none => if params.require_rs_rating then (none, false) else (none, true)

/-- The dictionary `evaluate_vcp_plus` returns (`np.nan` entries are `none`). -/
structure VcpPlusResult where
  stage2_pass : Bool
  vcp_pass : Bool
  rs_pass : Bool
  num_contractions : ℕ
  max_contraction : OptQ
  min_contraction : OptQ
  weeks_of_contraction : ℚ
  rs_rating : OptQ
deriving DecidableEq

/-- Elementwise `series_a > series_b` for a plain series against a `NaN`-able one. -/
def seriesGtQO (a : List ℚ) (b : List OptQ) : List Bool :=
  List.zipWith (fun x y => oGt (some x) y) a b

/-- Elementwise `series_a > series_b` for two `NaN`-able series. -/
def seriesGtOO (a b : List OptQ) : List Bool := List.zipWith oGt a b

/-- Elementwise `&` of two boolean series. -/
def seriesAnd (a b : List Bool) : List Bool := List.zipWith and a b

/-- `series.iloc[-1]` for a boolean condition series (nonempty at all use sites). -/
def lastB (l : List Bool) : Bool := l.getLastD false

/-- `vcp_plus.py` `evaluate_vcp_plus`.  All `iloc[-1]` accesses are guarded by the
data-sufficiency early return (the tail is nonempty there), so the function is
total. -/
def evaluate_vcp_plus (df : Frame) (params : VCPPlusParams) : VcpPlusResult :=
  let lookback := min df.len params.lookback_period
  let close_tail := tailN lookback df.close
  let high_tail := tailN lookback df.high
  let low_tail := tailN lookback df.low
  let volume_tail := tailN lookback df.volume
  if lookback < max (params.ma_200_period + params.ma_trend_period)
      (params.local_extrema_order * 2 + 1) then
    ⟨false, false, false, 0, none, none, 0, none⟩
  else
    let ma_50 := rollingMean params.ma_50_period close_tail
    let ma_150 := rollingMean params.ma_150_period close_tail
    let ma_200 := rollingMean params.ma_200_period close_tail
    let week_window := if params.week_window ≤ lookback then params.week_window else lookback
    let week_low := rollingMin week_window low_tail
    let week_high := rollingMax week_window high_tail
    let ma_200_slope := rollingApplyOpt trend_value params.ma_trend_period ma_200
    let condition_1 := seriesAnd
      (seriesAnd (seriesGtQO close_tail ma_150) (seriesGtQO close_tail ma_200))
      (seriesGtQO close_tail ma_50)
    let condition_2 := seriesAnd (seriesGtOO ma_150 ma_200) (seriesGtOO ma_50 ma_150)
    let condition_3 := ma_200_slope.map fun s => oGt s (some 0)
    let condition_6 := List.zipWith (fun lo wl => oGt (some lo) (oMul wl (13 / 10))) low_tail week_low
    let condition_7 := List.zipWith (fun hi wh => oGt (some hi) (oMul wh (3 / 4))) high_tail week_high
    let condition_8 := condition8Series params close_tail
      (df.benchmark_close.map (tailN lookback)) lookback
    let stage2_pass := lastB condition_1 && lastB condition_2 && lastB condition_3 &&
      lastB condition_6 && lastB condition_7 && lastB condition_8
    let highs := high_tail
    let lows := low_tail
    let raw_high := local_extrema_plus highs params.local_extrema_order ExtremaMode.max
    let raw_low := local_extrema_plus lows params.local_extrema_order ExtremaMode.min
    let adjusted := adjust_local_high_low raw_high raw_low
    let local_high := adjusted.1
    let local_low := adjusted.2
    let contraction :=
      if 2 ≤ local_high.length ∧ 2 ≤ local_low.length then
        contractions_plus highs lows local_high local_low
      else []
    let num_c := if contraction ≠ [] then num_contractions contraction else 0
    let max_c : OptQ := if 1 ≤ num_c then some (contraction.getD (num_c - 1) 0) else none
    let min_c : OptQ := if 1 ≤ num_c then some (contraction.getD 0 0) else none
    let weeks_of_contraction :=
      if contraction ≠ [] ∧ 1 ≤ num_c ∧ num_c ≤ local_high.length then
        weeksValue lookback local_high num_c
      else 0
    let vol_ma_short := rollingMean params.vol_short_period volume_tail
    let vol_ma_long := rollingMean params.vol_long_period volume_tail
    let vol_contraction := oLt (lastO vol_ma_short) (lastO vol_ma_long)
    let consolidation_ok := consolidationOk params.require_consolidation high_tail local_high
    let flag_num := decide (params.min_contractions ≤ num_c ∧ num_c ≤ params.max_contractions)
    let flag_max := oLe max_c params.max_contraction_depth
    let flag_min := oLe min_c params.min_contraction_depth
    let flag_week := decide ((params.min_weeks : ℚ) ≤ weeks_of_contraction)
    let vcp_pass := flag_num && flag_max && flag_min && flag_week && vol_contraction &&
      consolidation_ok
    let rs := rsRatingPass params (df.rs_rating.map (tailN lookback))
    ⟨stage2_pass, vcp_pass, rs.2, num_c, max_c, min_c, weeks_of_contraction, rs.1⟩

/-- The feature record the indicator reads from `compute_vcp_features` (dict `get`
accesses; a missing or `NaN` float is `none`). -/
structure VcpFeatures where
  close_last : OptQ
  ma_50 : OptQ
  ma_150 : OptQ
  ma_200 : OptQ
  ma_200_slope : OptQ
  week_52_low : OptQ
  week_52_high : OptQ
  num_contractions : ℕ
  max_contraction : OptQ
  min_contraction : OptQ
  weeks_of_contraction : ℚ
  vol_ma_short : OptQ
  vol_ma_long : OptQ
deriving DecidableEq

/-- Modelled from the spec: `VCPIndicator` imports `compute_vcp_features` from
`core.analysis.indicators.vcp`, but that module (under `src/`) only defines
`evaluate_vcp`; the feature function itself is missing from the source tree.
Following spec §4.3–§4.5 and §4.7 (moving averages, 52-week range, MA200 slope,
contraction statistics, volume moving averages over the current window — the very
intermediates of `evaluate_vcp`), it is reconstructed here with exactly the
formulas of `evaluate_vcp` above, returning the intermediate values instead of
the verdict, and failing closed (missing values) on insufficient history. -/
def compute_vcp_features (df : Frame) (params : VCPParams) : VcpFeatures :=
  if df.len < max (params.ma_200_period + params.ma_trend_period)
      (params.local_extrema_order * 2 + 1) then
    ⟨none, none, none, none, none, none, none, 0, none, none, 0, none, none⟩
  else
    let lookback := min df.len params.lookback_period
    let close_tail := tailN lookback df.close
    let high_tail := tailN lookback df.high
    let low_tail := tailN lookback df.low
    let volume_tail := tailN lookback df.volume
    let ma_50 := rollingMean params.ma_50_period close_tail
    let ma_150 := rollingMean params.ma_150_period close_tail
    let ma_200 := rollingMean params.ma_200_period close_tail
    let week_52_low := rollingMin 252 low_tail
    let week_52_high := rollingMax 252 high_tail
    let ma_200_slope :=
      match iloc ma_200 (-(params.ma_trend_period : Int)) with
      | some back => oSub (lastO ma_200) back
      | none => none
    let highs := high_tail
    let lows := low_tail
    let local_high := local_extrema highs params.local_extrema_order ExtremaMode.max
    let local_low := local_extrema lows params.local_extrema_order ExtremaMode.min
    let contraction :=
      if 2 ≤ local_high.length ∧ 2 ≤ local_low.length then
        contractions highs lows local_high local_low
      else []
    let num_c := if contraction ≠ [] then num_contractions contraction else 0
    let max_c := if 1 ≤ num_c then contraction.getD (num_c - 1) 0 else 0
    let min_c := if 1 ≤ num_c then contraction.getD 0 0 else 0
    let weeks :=
      if contraction ≠ [] ∧ 1 ≤ num_c ∧ num_c ≤ local_high.length then
        weeksValue lookback local_high num_c
      else 0
    let vol_ma_short := rollingMean params.vol_short_period volume_tail
    let vol_ma_long := rollingMean params.vol_long_period volume_tail
    ⟨close_tail.getLast?, lastO ma_50, lastO ma_150, lastO ma_200, ma_200_slope,
      lastO week_52_low, lastO week_52_high, num_c, some max_c, some min_c, weeks,
      lastO vol_ma_short, lastO vol_ma_long⟩

/-- Modelled from the spec (§4.8) and backtrader's `EMA` indicator used by the
source: exponential moving average of close with the given period — `NaN` before
`period` bars, an SMA seed at bar `period`, then
`ema = prev + (x - prev) * 2 / (period + 1)`. -/
def emaSeries (period : ℕ) (closes : List ℚ) : List OptQ :=
  if closes.length < period ∨ period = 0 then List.replicate closes.length none
  else
    let seed := ((closes.take period).foldl (· + ·) 0) / (period : ℚ)
    let alpha := 2 / ((period : ℚ) + 1)
    let rest := go alpha seed (closes.drop period)
    List.replicate (period - 1) none ++ [some seed] ++ rest.map some
where
  /-- The recursive EMA update over the remaining closes. -/
  go (alpha prev : ℚ) : List ℚ → List ℚ
    | [] => []
    | x :: xs =>
      let e := prev + (x - prev) * alpha
      e :: go alpha e xs

/-- The backtrader parameters of `VCPIndicator` (the `debug_once` flag only
controls printing and is omitted). -/
structure VCPIndicatorParams where
  ma_50_period : ℕ := 50
  ma_150_period : ℕ := 150
  ma_200_period : ℕ := 200
  ma_trend_period : ℕ := 20
  local_extrema_order : ℕ := 10
  min_contractions : ℕ := 2
  max_contractions : ℕ := 4
  max_contraction_depth : ℚ := 50
  min_contraction_depth : ℚ := 15
  min_weeks : ℕ := 2
  lookback_period : ℕ := 252
  vol_short_period : ℕ := 5
  vol_long_period : ℕ := 30
  progress_threshold : ℚ := 1
  ema_sell_period : ℕ := 5

/-- The `VCPParams(...)` object `VCPIndicator.next` builds from its own params. -/
def VCPIndicatorParams.toVCPParams (p : VCPIndicatorParams) : VCPParams :=
  ⟨p.ma_50_period, p.ma_150_period, p.ma_200_period, p.ma_trend_period,
    p.local_extrema_order, p.min_contractions, p.max_contractions,
    p.max_contraction_depth, p.min_contraction_depth, p.min_weeks,
    p.lookback_period, p.vol_short_period, p.vol_long_period⟩

/-- The indicator lines `VCPIndicator.next` writes for the current bar
(`NaN` = no marker = `none`). -/
structure VCPIndicatorOutput where
  stage2_pass_line : ℚ
  vcp_signal : OptQ
  vcp_sell_signal : OptQ
  num_contractions_line : ℕ
  max_contraction_line : OptQ
  min_contraction_line : OptQ
deriving DecidableEq

/-- The Stage-2 filter of `VCPIndicator.next` (source order, with the `is not
None` guards of the dict accesses). -/
def vcpStage2Check (f : VcpFeatures) : Bool :=
  f.close_last.isSome &&
  f.ma_50.isSome &&
  f.ma_150.isSome &&
  f.ma_200.isSome &&
  f.week_52_low.isSome &&
  f.week_52_high.isSome &&
  oGt f.close_last f.ma_150 &&
  oGt f.close_last f.ma_200 &&
  oGt f.close_last f.ma_50 &&
  (oGt f.ma_50 f.ma_150 && oGt f.ma_150 f.ma_200) &&
  f.ma_200_slope.isSome &&
  oGt f.ma_200_slope (some 0) &&
  oGt f.close_last (oMul f.week_52_low (13 / 10)) &&
  oGt f.close_last (oMul f.week_52_high (3 / 4))

/-- The ordered condition dictionary of `VCPIndicator.next` (stage 2, contraction
count, depth limits, duration, volume dry-up). -/
def vcpConditions (p : VCPIndicatorParams) (stage2_pass : Bool) (f : VcpFeatures) : List Bool :=
  [stage2_pass,
    decide (p.min_contractions ≤ f.num_contractions ∧
      f.num_contractions ≤ p.max_contractions),
    oLe f.max_contraction p.max_contraction_depth,
    oLe f.min_contraction p.min_contraction_depth,
    decide ((p.min_weeks : ℚ) ≤ f.weeks_of_contraction),
    f.vol_ma_short.isSome && f.vol_ma_long.isSome && oLt f.vol_ma_short f.vol_ma_long]

/-- The four-column frame `_build_feature_frame` assembles from the last
`lookback` bars. -/
def frameTail (lookback : ℕ) (bars : Frame) : Frame :=
  ⟨tailN lookback bars.close, tailN lookback bars.high, tailN lookback bars.low,
    tailN lookback bars.volume, none, none⟩

/-- The EMA downside-cross test of the sell block: previous close at or above the
previous EMA and current close strictly below the current EMA. -/
def emaCross (period : ℕ) (closes : List ℚ) : Bool :=
  let ema_sell := emaSeries period closes
  oGe (some ((iloc closes (-2)).getD 0)) ((iloc ema_sell (-2)).getD none) &&
  oLt (some (closes.getLastD 0)) ((iloc ema_sell (-1)).getD none)

/-- The `VCPIndicator.next` body as a function of the bar history seen so far
(`bars`, oldest first — `len(self)` bars) and the persistent `_vcp_bought` flag;
returns the new flag and the line outputs for this bar.  The EMA sell line is the
backtrader EMA over the whole close stream.  Mirrors the source control flow:
early exits on insufficient history, a failed Stage 2, a progress below the
threshold, or (at threshold ≥ 1) any failed condition; otherwise a buy signal is
emitted, `_vcp_bought` is set, and only then — inside the same branch — the EMA
downside cross is tested for a sell. -/
def vcpIndicatorNext (p : VCPIndicatorParams) (bars : Frame) (bought : Bool) :
    Bool × VCPIndicatorOutput :=
  let noSignal : VCPIndicatorOutput := ⟨0, none, none, 0, none, none⟩
  let n := bars.len
  let min_len := max (max (p.ma_200_period + p.ma_trend_period)
    (p.local_extrema_order * 2 + 1)) p.ema_sell_period
  if n < min_len then (bought, noSignal)
  else
    let lookback := min n p.lookback_period
    let vcp_result := compute_vcp_features (frameTail lookback bars) p.toVCPParams
    let stage2_pass := vcpStage2Check vcp_result
    if stage2_pass = false then (bought, noSignal)
    else
      let conditions := vcpConditions p stage2_pass vcp_result
      let progress := ((conditions.countP id : ℕ) : ℚ) / ((conditions.length : ℕ) : ℚ)
      if progress < p.progress_threshold then (bought, { noSignal with stage2_pass_line := 1 })
      else if conditions.all id = false ∧ 1 ≤ p.progress_threshold then
        (bought, { noSignal with stage2_pass_line := 1 })
      else
        let buyOut : VCPIndicatorOutput :=
          ⟨1, some (bars.close.getLastD 0), none, vcp_result.num_contractions,
            vcp_result.max_contraction, vcp_result.min_contraction⟩
        let vcp_bought := true
        if vcp_bought = true ∧ p.ema_sell_period < n then
          if emaCross p.ema_sell_period bars.close = true then
            (false, { buyOut with vcp_sell_signal := some (bars.close.getLastD 0) })
          else (vcp_bought, buyOut)
        else (vcp_bought, buyOut)

/-- Modelled from the spec's words (§4.3): the length of the longest strictly
increasing prefix of a list — "the longest strictly-increasing run starting from
the first (most recent) element … stop at the first non-increase". -/
def specIncreasingRunLen : List ℚ → ℕ
  | [] => 0
  | [_] => 1
  | a :: b :: r => if a < b then 1 + specIncreasingRunLen (b :: r) else 1

/-- Ten constant bars followed by a drop: a downside EMA cross at the last bar. -/
def c2Closes : List ℚ := [10, 10, 10, 10, 10, 10, 10, 10, 10, 5]

/-- The C2 bar history (all four columns share the close path). -/
def c2Frame : Frame :=
  ⟨c2Closes, c2Closes, c2Closes, List.replicate 10 1, none, none⟩

/-- Small-period indicator parameters keeping the data requirement at ten bars. -/
def c2Params : VCPIndicatorParams := {
  ma_50_period := 1,
  ma_150_period := 1,
  ma_200_period := 2,
  ma_trend_period := 1,
  local_extrema_order := 1,
  vol_short_period := 1,
  vol_long_period := 2,
  ema_sell_period := 3 }

/-- 250 flat bars and a two-bar rise: Stage 2 passes at the last bar. -/
def c3Closes : List ℚ := List.replicate 250 10 ++ [12, 14]

/-- The same stream one qualifying bar later. -/
def c3Closes2 : List ℚ := List.replicate 250 10 ++ [12, 14, 16]

/-- The C3 bar history at 252 bars. -/
def c3Frame : Frame := ⟨c3Closes, c3Closes, c3Closes, List.replicate 252 1, none, none⟩

/-- The C3 bar history at 253 bars. -/
def c3Frame2 : Frame := ⟨c3Closes2, c3Closes2, c3Closes2, List.replicate 253 1, none, none⟩

/-- Indicator parameters with small MA periods and a zero progress threshold (a
"loose" mode: any bar passing Stage 2 emits a buy). -/
def c3Params : VCPIndicatorParams := {
  ma_50_period := 2,
  ma_150_period := 3,
  ma_200_period := 4,
  ma_trend_period := 2,
  local_extrema_order := 1,
  vol_short_period := 1,
  vol_long_period := 2,
  progress_threshold := 0,
  ema_sell_period := 3 }

/-- The last 252 bars of `c3Closes2` (the lookback window at bar 253). -/
def c3Tail2 : List ℚ := List.replicate 249 10 ++ [12, 14, 16]

/-- `c3Frame2` truncated to its 252-bar lookback window. -/
def c3TailFrame2 : Frame := ⟨c3Tail2, c3Tail2, c3Tail2, List.replicate 252 1, none, none⟩

/-- A seven-bar window for the extended evaluator whose last bar has a tall upper
wick: high 20 but close 14. -/
def c6Frame : Frame := {
  close := [10, 10, 10, 11, 12, 13, 14],
  high := [10, 10, 10, 11, 12, 13, 20],
  low := [9, 9, 9, 10, 12, 13, 14],
  volume := [1, 1, 1, 1, 1, 1, 1] }

/-- Small-period extended-evaluator parameters (RS checks off, consolidation off). -/
def c6Params : VCPPlusParams := {
  ma_50_period := 2,
  ma_150_period := 3,
  ma_200_period := 4,
  ma_trend_period := 2,
  rs_trend_period := 2,
  week_window := 4,
  local_extrema_order := 1,
  lookback_period := 520,
  require_rs_slope := false,
  require_rs_rating := false,
  require_consolidation := false }

/-- Highs with local maxima at indices 1 and 8. -/
def c7Highs : List ℚ := [1, 9, 8, 7, 6, 5, 4, 3, 9, 4, 3, 2]

/-- Lows with local minima at indices 2 and 5. -/
def c7Lows : List ℚ := [9, 8, 2, 8, 5, 1, 5, 6, 7, 8, 9, 2]

/-- A twelve-bar window in which the contraction walk skips the most recent local
high (index 8) and pairs the low at index 5 with the high at index 1. -/
def c7Frame : Frame :=
  ⟨List.replicate 12 5, c7Highs, c7Lows, List.replicate 12 1, none, none⟩

/-- Small-period parameters for the C7 window. -/
def c7Params : VCPParams := {
  ma_50_period := 1,
  ma_150_period := 1,
  ma_200_period := 2,
  ma_trend_period := 1,
  local_extrema_order := 1,
  min_contractions := 1,
  max_contractions := 4,
  max_contraction_depth := 100,
  min_contraction_depth := 15,
  min_weeks := 2,
  vol_short_period := 1,
  vol_long_period := 2 }

/-- Highs with one adjusted local high at index 1 (price 100) and a latest high 110
above it while the latest close stays below it. -/
def c8Highs : List ℚ := [5, 100, 5, 110]

/-- Lows for the C8 window (one local low at index 2). -/
def c8Lows : List ℚ := [50, 40, 3, 30]

/-- Closes for the C8 window: the latest close 90 is below the pivot high 100. -/
def c8Closes : List ℚ := [5, 90, 5, 90]

/-- Extended-evaluator parameters requiring the RS slope with a two-bar window. -/
def c9Params : VCPPlusParams := { rs_trend_period := 2, require_rs_slope := true }

/-! ### Supporting list-evaluation lemmas -/

theorem lastO_map_range (f : ℕ → OptQ) (n : ℕ) (hn : 1 ≤ n) :
    lastO ((List.range n).map f) = f (n - 1) := by
  unfold lastO
  rw [List.getLastD_eq_getLast?, List.getLast?_eq_getElem?]
  have hlt : n - 1 < n := by omega
  simp [List.getElem?_map, List.getElem?_range, hlt]

theorem iloc_neg_map_range (f : ℕ → OptQ) (n k : ℕ) (h1 : 1 ≤ k) (h2 : k ≤ n) :
    iloc ((List.range n).map f) (-(k : Int)) = some (f (n - k)) := by
  unfold iloc
  have hneg : ¬ (0 ≤ -(k : Int)) := by omega
  rw [if_neg hneg]
  have habs : (-(k : Int)).natAbs = k := by omega
  rw [habs]
  have hlen : ((List.range n).map f).length = n := by simp
  rw [hlen, if_pos h2]
  have hlt : n - k < n := by omega
  simp [List.getElem?_map, List.getElem?_range, hlt]

theorem tailN_of_length_le (n : ℕ) (l : List α) (h : l.length ≤ n) : tailN n l = l := by
  unfold tailN
  rw [Nat.sub_eq_zero_of_le h, List.drop_zero]

theorem rollingMean_last (w : ℕ) (l : List ℚ) (h : 1 ≤ l.length) :
    lastO (rollingMean w l) =
      if 1 ≤ w ∧ w ≤ l.length then
        some ((((l.drop (l.length - w)).take w).foldl (· + ·) 0) / (w : ℚ))
      else none := by
  unfold rollingMean
  rw [lastO_map_range _ _ h]
  have he : l.length - 1 + 1 = l.length := by omega
  rw [he]

theorem rollingMin_last (w : ℕ) (l : List ℚ) (h : 1 ≤ l.length) :
    lastO (rollingMin w l) =
      if 1 ≤ w ∧ w ≤ l.length then some (npMin ((l.drop (l.length - w)).take w)) else none := by
  unfold rollingMin
  rw [lastO_map_range _ _ h]
  have he : l.length - 1 + 1 = l.length := by omega
  rw [he]

theorem rollingMax_last (w : ℕ) (l : List ℚ) (h : 1 ≤ l.length) :
    lastO (rollingMax w l) =
      if 1 ≤ w ∧ w ≤ l.length then some (npMax ((l.drop (l.length - w)).take w)) else none := by
  unfold rollingMax
  rw [lastO_map_range _ _ h]
  have he : l.length - 1 + 1 = l.length := by omega
  rw [he]

theorem rollingMean_iloc_neg (w : ℕ) (l : List ℚ) (k : ℕ) (h1 : 1 ≤ k) (h2 : k ≤ l.length) :
    iloc (rollingMean w l) (-(k : Int)) =
      some (if 1 ≤ w ∧ w ≤ l.length - k + 1 then
        some ((((l.drop (l.length - k + 1 - w)).take w).foldl (· + ·) 0) / (w : ℚ))
      else none) := by
  unfold rollingMean
  rw [iloc_neg_map_range _ _ _ h1 h2]

theorem foldl_min_replicate (a b : ℚ) (n : ℕ) :
    List.foldl min a (List.replicate n b) = if n = 0 then a else min a b := by
  induction n generalizing a with
  | zero => simp
  | succ m ih =>
    rw [List.replicate_succ, List.foldl_cons, ih]
    rcases Nat.eq_zero_or_pos m with hm | hm
    · simp [hm]
    · have : m ≠ 0 := by omega
      simp [this, min_assoc]

theorem foldl_max_replicate (a b : ℚ) (n : ℕ) :
    List.foldl max a (List.replicate n b) = if n = 0 then a else max a b := by
  induction n generalizing a with
  | zero => simp
  | succ m ih =>
    rw [List.replicate_succ, List.foldl_cons, ih]
    rcases Nat.eq_zero_or_pos m with hm | hm
    · simp [hm]
    · have : m ≠ 0 := by omega
      simp [this, max_assoc]

theorem progress_of_conditions (l : List Bool) (h : l ≠ []) :
    0 ≤ ((l.countP id : ℕ) : ℚ) / ((l.length : ℕ) : ℚ) ∧
    ((l.countP id : ℕ) : ℚ) / ((l.length : ℕ) : ℚ) ≤ 1 ∧
    (l.all id = true ↔ ((l.countP id : ℕ) : ℚ) / ((l.length : ℕ) : ℚ) = 1) := by
  have hlen : 0 < l.length := List.length_pos.mpr h
  have hlenQ : (0 : ℚ) < ((l.length : ℕ) : ℚ) := by exact_mod_cast hlen
  have hle : l.countP id ≤ l.length := l.countP_le_length id
  refine ⟨div_nonneg (by positivity) hlenQ.le, ?_, ?_⟩
  · rw [div_le_one hlenQ]
    exact_mod_cast hle
  · rw [div_eq_one_iff_eq hlenQ.ne']
    rw [List.all_eq_true]
    constructor
    · intro hall
      have hc : l.countP id = l.length := List.countP_eq_length.mpr fun a ha => hall a ha
      exact_mod_cast hc
    · intro hcast
      have hc : l.countP id = l.length := by exact_mod_cast hcast
      exact fun x hx => List.countP_eq_length.mp hc x hx

/-! ### C1 — pattern scorer progress bounds -/

/-- C1: for every input frame (any DataFrame with close/high/low/volume columns)
and every parameter set, whenever `evaluate_vcp` returns a result its `progress`
lies in [0, 1], and `is_vcp` holds exactly when `progress` equals 1 (so in
particular `is_vcp` implies `progress = 1.0`). -/
theorem evaluate_vcp_progress_unit_interval (df : Frame) (p : VCPParams) :
    match evaluate_vcp df p with
    | some r => 0 ≤ r.progress ∧ r.progress ≤ 1 ∧ (r.is_vcp = true ↔ r.progress = 1)
    | none => True := by
  rcases h : evaluate_vcp df p with _ | r
  · trivial
  · unfold evaluate_vcp at h
    dsimp only at h
    split at h
    · cases h
      refine ⟨le_refl 0, by norm_num, ?_, ?_⟩
      · intro hf
        exact absurd hf (by norm_num)
      · intro hf
        exact absurd hf (by norm_num)
    · split at h
      · cases h
        exact progress_of_conditions _ (by simp)
      · cases h

/-! ### C4 — zero-high handling in the contraction analyzers -/

theorem contractionsAux_eq_pairsWalk_map (highs lows : List ℚ) :
    ∀ hi li, contractionsAux highs lows li hi =
      (pairsWalk li hi).map fun pr =>
        round2 ((highs.getD pr.1 0 - lows.getD pr.2 0) / highs.getD pr.1 0 * 100) := by
  intro hi
  induction hi with
  | nil => intro li; cases li <;> rfl
  | cons hj hs ih =>
    intro li
    cases li with
    | nil => rfl
    | cons li ls =>
      by_cases hc : hj < li
      · simp only [contractionsAux, pairsWalk, if_pos hc, List.map_cons, ih]
      · simp only [contractionsAux, pairsWalk, if_neg hc, ih]

theorem contractionsPlusAux_eq_pairsWalk_filterMap (highs lows : List ℚ) :
    ∀ hi li, contractionsPlusAux highs lows li hi =
      (pairsWalk li hi).filterMap fun pr =>
        if highs.getD pr.1 0 ≠ 0 then
          some (round2 ((highs.getD pr.1 0 - lows.getD pr.2 0) / highs.getD pr.1 0 * 100))
        else none := by
  intro hi
  induction hi with
  | nil => intro li; cases li <;> rfl
  | cons hj hs ih =>
    intro li
    cases li with
    | nil => rfl
    | cons li ls =>
      by_cases hc : hj < li
      · by_cases hz : highs.getD hj 0 ≠ 0
        · simp only [contractionsPlusAux, pairsWalk, if_pos hc, if_pos hz,
            List.filterMap_cons, ih]
          rfl
        · simp only [contractionsPlusAux, pairsWalk, if_pos hc, if_neg hz,
            List.filterMap_cons, ih]
          rfl
      · simp only [contractionsPlusAux, pairsWalk, if_neg hc, ih]

/-- C4 counterexample: pairing the low at index 1 with the zero high at index 0,
the `vcp.py` analyzer still appends a depth entry (in float arithmetic the
division by the zero high makes it non-finite), while the `vcp_plus.py` analyzer
skips the pair; so the claimed zero-high skipping does not hold for the basic
analyzer. -/
theorem contractions_zero_high_appended :
    (contractions [0, 2] [3, 1] [0] [1]).length = 1 ∧
    contractions_plus [0, 2] [3, 1] [0] [1] = [] := by
  constructor <;> with_unfolding_all rfl

/-- C4 amended: only the extended (`vcp_plus.py`) analyzer guards the zero-high
denominator: its depth list is exactly the walked pairs with zero-high pairs
skipped (both cursors still advance, so the remaining pairs are processed), while
the basic (`vcp.py`) analyzer records a depth for every walked pair, including
zero-high ones. -/
theorem contractions_zero_high_skipped_only_in_plus (highs lows : List ℚ)
    (lh ll : List ℕ) :
    contractions_plus highs lows lh ll =
      ((contractionPairs lh ll).filterMap fun pr =>
        if highs.getD pr.1 0 ≠ 0 then
          some (round2 ((highs.getD pr.1 0 - lows.getD pr.2 0) / highs.getD pr.1 0 * 100))
        else none) ∧
    contractions highs lows lh ll =
      ((contractionPairs lh ll).map fun pr =>
        round2 ((highs.getD pr.1 0 - lows.getD pr.2 0) / highs.getD pr.1 0 * 100)) := by
  constructor
  · exact contractionsPlusAux_eq_pairsWalk_filterMap highs lows lh.reverse ll.reverse
  · exact contractionsAux_eq_pairsWalk_map highs lows lh.reverse ll.reverse

/-! ### C5 — valid run length versus strictly increasing prefix -/

theorem specIncreasingRunLen_pos (a : ℚ) (l : List ℚ) :
    1 ≤ specIncreasingRunLen (a :: l) := by
  cases l with
  | nil => simp [specIncreasingRunLen]
  | cons b r =>
    rw [specIncreasingRunLen]
    split <;> omega

theorem numContractionsAux_eq_specRun (l : List ℚ) :
    ∀ prev, numContractionsAux prev l = specIncreasingRunLen (prev :: l) - 1 := by
  induction l with
  | nil => intro prev; rfl
  | cons c rest ih =>
    intro prev
    by_cases hc : prev < c
    · rw [numContractionsAux, if_pos hc, ih c, specIncreasingRunLen, if_pos hc]
      have := specIncreasingRunLen_pos c rest
      omega
    · rw [numContractionsAux, if_neg hc, specIncreasingRunLen, if_neg hc]

/-- C5 counterexample: for the depth list [0, 1] the analyzer's valid run length
is 0 (the seed comparison `0 > 0` fails), while the longest strictly increasing
prefix of the list has length 2 — so the claimed equality fails on lists whose
first element is zero (or negative). -/
theorem num_contractions_zero_first_mismatch :
    num_contractions [0, 1] = 0 ∧ specIncreasingRunLen [0, 1] = 2 := by
  constructor <;> with_unfolding_all rfl

/-- C5 amended: the valid run length equals the length of the longest strictly
increasing prefix of the depth list with a 0 PREPENDED (minus the prepended
element): the first depth must strictly exceed the zero seed, so a first element
that is zero or negative yields run length 0 rather than starting a run. -/
theorem num_contractions_eq_run_from_zero_seed (l : List ℚ) :
    num_contractions l = specIncreasingRunLen ((0 : ℚ) :: l) - 1 :=
  numContractionsAux_eq_specRun l 0

/-! ### C6 — the 52-week range criteria inside Stage 2 -/

theorem and_chain8_extract_last_two (a b c d e f g h : Bool) :
    (a && b && c && (d && e) && f && g && h) =
      ((a && b && c && (d && e) && f && g && h) && (g && h)) := by
  revert a b c d e f g h
  decide

theorem and_chain6_extract_mid_two (a b c d e f : Bool) :
    (a && b && c && d && e && f) = ((a && b && c && d && e && f) && (d && e)) := by
  revert a b c d e f
  decide

/-- C6 corrected: stage-2 truth forces the two range criteria, but they are
evaluated on the CLOSE only in the basic evaluator; the extended evaluator
compares the latest LOW against 1.3 × the rolling low and the latest HIGH
against 0.75 × the rolling high (its adaptive week window standing in for the
52-week one). -/
theorem stage2_range_criteria_per_evaluator (df : Frame) (p : VCPParams)
    (df2 : Frame) (p2 : VCPPlusParams) :
    (match evaluate_vcp df p with
     | some r => r.stage2_pass =
        (r.stage2_pass &&
          (oGt (some ((tailN (min df.len p.lookback_period) df.close).getLastD 0))
            (oMul (lastO (rollingMin 252 (tailN (min df.len p.lookback_period) df.low)))
              (13 / 10)) &&
           oGt (some ((tailN (min df.len p.lookback_period) df.close).getLastD 0))
            (oMul (lastO (rollingMax 252 (tailN (min df.len p.lookback_period) df.high)))
              (3 / 4))))
     | none => True) ∧
    ((evaluate_vcp_plus df2 p2).stage2_pass =
      ((evaluate_vcp_plus df2 p2).stage2_pass &&
        (lastB (List.zipWith (fun lo wl => oGt (some lo) (oMul wl (13 / 10)))
            (tailN (min df2.len p2.lookback_period) df2.low)
            (rollingMin
              (if p2.week_window ≤ min df2.len p2.lookback_period then p2.week_window
               else min df2.len p2.lookback_period)
              (tailN (min df2.len p2.lookback_period) df2.low))) &&
         lastB (List.zipWith (fun hi wh => oGt (some hi) (oMul wh (3 / 4)))
            (tailN (min df2.len p2.lookback_period) df2.high)
            (rollingMax
              (if p2.week_window ≤ min df2.len p2.lookback_period then p2.week_window
               else min df2.len p2.lookback_period)
              (tailN (min df2.len p2.lookback_period) df2.high)))))) := by
  constructor
  · rcases h : evaluate_vcp df p with _ | r
    · trivial
    · unfold evaluate_vcp at h
      dsimp only at h
      split at h
      · cases h
        rfl
      · split at h
        · rename_i ma200_last ma200_back close_last heq1 heq2 heq3
          cases h
          have hcl : (tailN (min df.len p.lookback_period) df.close).getLastD 0 = close_last := by
            rw [List.getLastD_eq_getLast?, heq3]
            rfl
          rw [hcl]
          rw [stage2Basic]
          exact and_chain8_extract_last_two _ _ _ _ _ _ _ _
        · cases h
  · unfold evaluate_vcp_plus
    dsimp only
    split
    · rfl
    · exact and_chain6_extract_mid_two _ _ _ _ _ _

/-- C6 counterexample: a seven-bar window for the extended evaluator in which
`stage2_pass` is true while the latest close (14) is NOT above 0.75 × the rolling
window high (0.75 × 20 = 15): the range criteria are not evaluated on the close
there. -/
theorem stage2_plus_close_not_above_three_quarters_high :
    (evaluate_vcp_plus c6Frame c6Params).stage2_pass = true ∧
    oGt (some ((tailN 7 c6Frame.close).getLastD 0))
      (oMul (lastO (rollingMax 4 (tailN 7 c6Frame.high))) (3 / 4)) = false := by
  constructor <;> with_unfolding_all rfl

/-! ### C7 — which local high the duration criterion uses -/

theorem pairsWalk_eq_zip_of_noSkip :
    ∀ hi li, noSkipWalk li hi = true → pairsWalk li hi = hi.zip li := by
  intro hi
  induction hi with
  | nil => intro li _; cases li <;> rfl
  | cons hj hs ih =>
    intro li
    cases li with
    | nil => intro _; rfl
    | cons li ls =>
      intro h
      rw [noSkipWalk] at h
      simp only [Bool.and_eq_true, decide_eq_true_eq] at h
      obtain ⟨h1, h2⟩ := h
      rw [pairsWalk, if_pos h1, List.zip_cons_cons, ih ls h2]

/-- C7 counterexample: on the twelve-bar window the raw local highs are at
indices 1 and 8 and the walk pairs the low at index 5 with the HIGH AT INDEX 1
(skipping index 8); with one valid contraction the code evaluates the duration
from index 8 — `(12 - 8)/5 = 0.8 < 2` weeks, criterion false (progress counts
only two conditions) — whereas the claimed formula from the paired high yields
`(12 - 1)/5 = 2.2 ≥ 2`, true. -/
theorem duration_uses_unpaired_high :
    local_extrema c7Highs 1 ExtremaMode.max = [1, 8] ∧
    local_extrema c7Lows 1 ExtremaMode.min = [2, 5] ∧
    contractionPairs [1, 8] [2, 5] = [(1, 5)] ∧
    evaluate_vcp c7Frame c7Params = some ⟨false, false, 1 / 3, 1, 8889 / 100, 8889 / 100⟩ ∧
    weeksOkBasic c7Params 12 [8889 / 100] 1 [1, 8] = false ∧
    ((2 : ℚ) ≤ ((12 : ℚ) - 1) / 5) := by
  refine ⟨?_, ?_, ?_, ?_, ?_, by norm_num⟩ <;> with_unfolding_all rfl

theorem zip_getD_fst (a b : List ℕ) (m : ℕ) (h : m < (a.zip b).length) :
    ((a.zip b).getD m (0, 0)).1 = a.getD m 0 := by
  have ha : m < a.length := by
    rw [List.length_zip] at h
    omega
  rw [List.getD_eq_getElem?_getD, List.getD_eq_getElem?_getD,
    List.getElem?_eq_getElem h, List.getElem?_eq_getElem ha]
  simp [List.getElem_zip]

/-- C7 amended: the duration criterion divides `(window_length − r)` by 5 where
`r` is the index at position `num_c − 1` of the REVERSED RAW local-high list;
this coincides with the high paired with the oldest valid contraction exactly
when the pairing walk skipped nothing: with no skips the recorded pairs are the
positionwise zip of the reversed lists, so the k-th pair's high is entry k of
the reversed local-high list and the weeks value equals
`(lookback − paired_high)/5`. -/
theorem weeks_high_is_paired_when_no_skips (lh ll : List ℕ) (lookback num_c : ℕ)
    (h : noSkipWalk ll.reverse lh.reverse = true)
    (hk : num_c - 1 < (contractionPairs lh ll).length) :
    ((contractionPairs lh ll).getD (num_c - 1) (0, 0)).1 = lh.reverse.getD (num_c - 1) 0 ∧
    weeksValue lookback lh num_c =
      ((lookback : ℚ) - (((contractionPairs lh ll).getD (num_c - 1) (0, 0)).1 : ℕ)) / 5 := by
  have hz : contractionPairs lh ll = lh.reverse.zip ll.reverse :=
    pairsWalk_eq_zip_of_noSkip lh.reverse ll.reverse h
  have h1 : ((contractionPairs lh ll).getD (num_c - 1) (0, 0)).1 =
      lh.reverse.getD (num_c - 1) 0 := by
    rw [hz]
    exact zip_getD_fst _ _ _ (hz ▸ hk)
  refine ⟨h1, ?_⟩
  rw [h1, weeksValue]

/-- Witness for the no-skip case: one low (index 1) after one high (index 0). -/
theorem weeks_high_is_paired_when_no_skips_witness :
    ((contractionPairs [0] [1]).getD 0 (0, 0)).1 = ([0] : List ℕ).reverse.getD 0 0 ∧
    weeksValue 12 [0] 1 =
      ((12 : ℚ) - (((contractionPairs [0] [1]).getD 0 (0, 0)).1 : ℕ)) / 5 :=
  weeks_high_is_paired_when_no_skips [0] [1] 12 1 (by decide) (by decide)

/-! ### C8 — the consolidation (not-yet-broken-out) criterion -/

/-- C8 counterexample: on a window whose adjusted local-high list is `[1]` (pivot
high 100), the latest close 90 is strictly below the pivot — the claimed
criterion would hold — yet the code's criterion is false because it compares the
latest HIGH (110) with the pivot. -/
theorem consolidation_compares_high_not_close :
    (adjust_local_high_low (local_extrema_plus c8Highs 1 ExtremaMode.max)
        (local_extrema_plus c8Lows 1 ExtremaMode.min)).1 = [1] ∧
    consolidationOk true c8Highs [1] = false ∧
    (c8Closes.getLastD 0 < c8Highs.getD 1 0) := by
  refine ⟨?_, ?_, ?_⟩ <;> with_unfolding_all rfl

/-- C8 amended: with the check enabled and at least one adjusted local high, the
criterion is true iff the latest HIGH (not the latest close) is strictly below
the high at the most recent adjusted local-high index; with the check disabled
it is vacuously true. -/
theorem consolidation_criterion_on_latest_high (require : Bool) (high_tail : List ℚ)
    (local_high : List ℕ) :
    (require = true → local_high ≠ [] →
      (consolidationOk require high_tail local_high = true ↔
        high_tail.getLastD 0 < high_tail.getD (local_high.getLastD 0) 0)) ∧
    (require = false → consolidationOk require high_tail local_high = true) := by
  constructor
  · intro hr hne
    subst hr
    rw [consolidationOk]
    simp [hne]
  · intro hr
    subst hr
    rw [consolidationOk]
    simp

/-- Witness: enabled check, one adjusted local high, latest high below the pivot. -/
theorem consolidation_criterion_on_latest_high_witness :
    (consolidationOk true [5, 100, 5, 90] [1] = true ↔
      ([5, 100, 5, 90] : List ℚ).getLastD 0 < ([5, 100, 5, 90] : List ℚ).getD 1 0) :=
  (consolidation_criterion_on_latest_high true [5, 100, 5, 90] [1]).1 rfl (by decide)

/-! ### C9 — the relative-strength slope criterion -/

/-- C9 counterexample: with a benchmark equal to the close series the RS line is
constant, its regression slope at the last bar is exactly 0, and the criterion
is FALSE — a non-negative (zero) slope does not pass the strict test. -/
theorem rs_zero_slope_fails :
    lastO (rollingApplyOpt trend_value 2 (rsLineOf [1, 1, 1, 1] [1, 1, 1, 1])) = some 0 ∧
    lastB (condition8Series c9Params [1, 1, 1, 1] (some [1, 1, 1, 1]) 4) = false := by
  constructor <;> with_unfolding_all rfl

/-- C9 amended: with a benchmark supplied and the check enabled, a bar with a
defined RS-line regression slope passes the criterion iff that slope is STRICTLY
positive (an exactly-zero slope fails); with the check required but no benchmark
the criterion series is all-false; with the check disabled it is all-true. -/
theorem rs_slope_criterion_strict (p : VCPPlusParams) (ct b : List ℚ) (n i : ℕ) (s : ℚ) :
    (p.require_rs_slope = false →
      condition8Series p ct (some b) n = List.replicate n true ∧
      condition8Series p ct none n = List.replicate n true) ∧
    (p.require_rs_slope = true →
      condition8Series p ct none n = List.replicate n false) ∧
    (p.require_rs_slope = true →
      (rollingApplyOpt trend_value p.rs_trend_period (rsLineOf ct b)).getD i none = some s →
      ((condition8Series p ct (some b) n).getD i false = true ↔ 0 < s)) := by
  refine ⟨?_, ?_, ?_⟩
  · intro hr
    constructor <;> · rw [condition8Series]; simp [hr]
  · intro hr
    rw [condition8Series]
    simp [hr]
  · intro hr hs
    rw [condition8Series]
    simp only [hr, if_neg (by simp : ¬ (true = false))]
    have hsome : (rollingApplyOpt trend_value p.rs_trend_period (rsLineOf ct b))[i]? =
        some (some s) := by
      rw [List.getD_eq_getElem?_getD] at hs
      rcases hx : (rollingApplyOpt trend_value p.rs_trend_period (rsLineOf ct b))[i]? with _ | v
      · rw [hx] at hs
        simp at hs
      · rw [hx] at hs
        simp at hs
        rw [hs]
    rw [List.getD_eq_getElem?_getD, List.getElem?_map, hsome]
    simp [oGt]

/-- Witness: benchmark constant, closes rising, slope 3 > 0 at the second bar. -/
theorem rs_slope_criterion_strict_witness :
    ((condition8Series c9Params [1, 4] (some [1, 1]) 2).getD 1 false = true ↔ (0 : ℚ) < 3) :=
  (rs_slope_criterion_strict c9Params [1, 4] [1, 1] 2 1 3).2.2 rfl (by with_unfolding_all rfl)

/-! ### C10 — the extrema locator -/

theorem le_foldl_max_init (xs : List ℚ) : ∀ a : ℚ, a ≤ xs.foldl max a := by
  induction xs with
  | nil => intro a; exact le_refl a
  | cons x xs ih => intro a; exact le_trans (le_max_left a x) (ih (max a x))

theorem le_foldl_max_of_mem (xs : List ℚ) : ∀ a : ℚ, ∀ x ∈ xs, x ≤ xs.foldl max a := by
  induction xs with
  | nil => intro a x hx; cases hx
  | cons y ys ih =>
    intro a x hx
    rcases List.mem_cons.mp hx with rfl | hx'
    · exact le_trans (le_max_right a x) (le_foldl_max_init ys (max a x))
    · exact ih (max a y) x hx'

theorem foldl_max_mem (xs : List ℚ) : ∀ a : ℚ, xs.foldl max a ∈ a :: xs := by
  induction xs with
  | nil => intro a; simp
  | cons x xs ih =>
    intro a
    rcases List.mem_cons.mp (ih (max a x)) with hm | hm
    · rcases max_choice a x with hc | hc
      · rw [hc] at hm
        have he : List.foldl max a (x :: xs) = a := by rw [List.foldl_cons, hc]; exact hm
        rw [he]
        simp
      · rw [hc] at hm
        have he : List.foldl max a (x :: xs) = x := by rw [List.foldl_cons, hc]; exact hm
        rw [he]
        simp
    · simp [List.foldl_cons, List.mem_cons.mpr (Or.inr (List.mem_cons.mpr (Or.inr hm)))]

theorem le_npMax_of_mem {l : List ℚ} {x : ℚ} (hx : x ∈ l) : x ≤ npMax l := by
  cases l with
  | nil => cases hx
  | cons y ys =>
    rcases List.mem_cons.mp hx with rfl | hx'
    · exact le_foldl_max_init ys x
    · exact le_foldl_max_of_mem ys y x hx'

theorem npMax_mem {l : List ℚ} (h : l ≠ []) : npMax l ∈ l := by
  cases l with
  | nil => exact absurd rfl h
  | cons y ys => exact foldl_max_mem ys y

theorem le_foldl_min_init (xs : List ℚ) : ∀ a : ℚ, xs.foldl min a ≤ a := by
  induction xs with
  | nil => intro a; exact le_refl a
  | cons x xs ih => intro a; exact le_trans (ih (min a x)) (min_le_left a x)

theorem foldl_min_le_of_mem (xs : List ℚ) : ∀ a : ℚ, ∀ x ∈ xs, xs.foldl min a ≤ x := by
  induction xs with
  | nil => intro a x hx; cases hx
  | cons y ys ih =>
    intro a x hx
    rcases List.mem_cons.mp hx with rfl | hx'
    · exact le_trans (le_foldl_min_init ys (min a x)) (min_le_right a x)
    · exact ih (min a y) x hx'

theorem foldl_min_mem (xs : List ℚ) : ∀ a : ℚ, xs.foldl min a ∈ a :: xs := by
  induction xs with
  | nil => intro a; simp
  | cons x xs ih =>
    intro a
    rcases List.mem_cons.mp (ih (min a x)) with hm | hm
    · rcases min_choice a x with hc | hc
      · rw [hc] at hm
        have he : List.foldl min a (x :: xs) = a := by rw [List.foldl_cons, hc]; exact hm
        rw [he]
        simp
      · rw [hc] at hm
        have he : List.foldl min a (x :: xs) = x := by rw [List.foldl_cons, hc]; exact hm
        rw [he]
        simp
    · simp [List.foldl_cons, List.mem_cons.mpr (Or.inr (List.mem_cons.mpr (Or.inr hm)))]

theorem npMin_le_of_mem {l : List ℚ} {x : ℚ} (hx : x ∈ l) : npMin l ≤ x := by
  cases l with
  | nil => cases hx
  | cons y ys =>
    rcases List.mem_cons.mp hx with rfl | hx'
    · exact le_foldl_min_init ys x
    · exact foldl_min_le_of_mem ys y x hx'

theorem npMin_mem {l : List ℚ} (h : l ≠ []) : npMin l ∈ l := by
  cases l with
  | nil => exact absurd rfl h
  | cons y ys => exact foldl_min_mem ys y

theorem mem_window_iff (arr : List ℚ) (i k : ℕ) (h1 : k ≤ i) (h2 : i + k < arr.length)
    (x : ℚ) :
    x ∈ (arr.drop (i - k)).take (k + k + 1) ↔
      ∃ j, i - k ≤ j ∧ j ≤ i + k ∧ x = arr.getD j 0 := by
  constructor
  · intro hx
    obtain ⟨m, hm, hval⟩ := List.mem_iff_getElem.mp hx
    have hmlen : m < k + k + 1 := by
      have hl := hm
      simp only [List.length_take, List.length_drop] at hl
      omega
    refine ⟨i - k + m, by omega, by omega, ?_⟩
    rw [← hval]
    rw [List.getElem_take, List.getElem_drop]
    rw [List.getD_eq_getElem arr 0 (by omega)]
  · rintro ⟨j, hj1, hj2, rfl⟩
    have hjlen : j < arr.length := by omega
    rw [List.getD_eq_getElem arr 0 hjlen]
    apply List.mem_iff_getElem.mpr
    have hlen : ((arr.drop (i - k)).take (k + k + 1)).length = k + k + 1 := by
      simp only [List.length_take, List.length_drop]
      omega
    refine ⟨j - (i - k), by omega, ?_⟩
    rw [List.getElem_take, List.getElem_drop]
    congr 1
    omega

theorem center_eq_npMax_iff (arr : List ℚ) (i k : ℕ) (h1 : k ≤ i) (h2 : i + k < arr.length) :
    (arr.getD i 0 = npMax ((arr.drop (i - k)).take (k + k + 1))) ↔
      ∀ j, i - k ≤ j → j ≤ i + k → arr.getD j 0 ≤ arr.getD i 0 := by
  have hlen : ((arr.drop (i - k)).take (k + k + 1)).length = k + k + 1 := by
    simp only [List.length_take, List.length_drop]
    omega
  have hwne : (arr.drop (i - k)).take (k + k + 1) ≠ [] := by
    intro hnil
    rw [hnil] at hlen
    simp at hlen
  constructor
  · intro hc j hj1 hj2
    have hjmem : arr.getD j 0 ∈ (arr.drop (i - k)).take (k + k + 1) :=
      (mem_window_iff arr i k h1 h2 _).mpr ⟨j, hj1, hj2, rfl⟩
    rw [hc]
    exact le_npMax_of_mem hjmem
  · intro hall
    obtain ⟨j, hj1, hj2, hval⟩ := (mem_window_iff arr i k h1 h2 _).mp (npMax_mem hwne)
    have hcen_mem : arr.getD i 0 ∈ (arr.drop (i - k)).take (k + k + 1) :=
      (mem_window_iff arr i k h1 h2 _).mpr ⟨i, by omega, by omega, rfl⟩
    exact le_antisymm (le_npMax_of_mem hcen_mem) (hval ▸ hall j hj1 hj2)

theorem center_eq_npMin_iff (arr : List ℚ) (i k : ℕ) (h1 : k ≤ i) (h2 : i + k < arr.length) :
    (arr.getD i 0 = npMin ((arr.drop (i - k)).take (k + k + 1))) ↔
      ∀ j, i - k ≤ j → j ≤ i + k → arr.getD i 0 ≤ arr.getD j 0 := by
  have hlen : ((arr.drop (i - k)).take (k + k + 1)).length = k + k + 1 := by
    simp only [List.length_take, List.length_drop]
    omega
  have hwne : (arr.drop (i - k)).take (k + k + 1) ≠ [] := by
    intro hnil
    rw [hnil] at hlen
    simp at hlen
  constructor
  · intro hc j hj1 hj2
    have hjmem : arr.getD j 0 ∈ (arr.drop (i - k)).take (k + k + 1) :=
      (mem_window_iff arr i k h1 h2 _).mpr ⟨j, hj1, hj2, rfl⟩
    rw [hc]
    exact npMin_le_of_mem hjmem
  · intro hall
    obtain ⟨j, hj1, hj2, hval⟩ := (mem_window_iff arr i k h1 h2 _).mp (npMin_mem hwne)
    have hcen_mem : arr.getD i 0 ∈ (arr.drop (i - k)).take (k + k + 1) :=
      (mem_window_iff arr i k h1 h2 _).mpr ⟨i, by omega, by omega, rfl⟩
    exact le_antisymm (hval ▸ hall j hj1 hj2) (npMin_le_of_mem hcen_mem)

theorem local_extrema_sorted (arr : List ℚ) (k : ℕ) (m : ExtremaMode) :
    (local_extrema arr k m).Sorted (· < ·) := by
  unfold local_extrema
  split
  · exact List.sorted_nil
  · have hp : (List.range' k (arr.length - k - k)).Pairwise (· < ·) := by
      rw [List.pairwise_iff_getElem]
      intro i j hi hj hij
      simp only [List.getElem_range']
      omega
    exact hp.filter _

theorem mem_local_extrema_max_iff (arr : List ℚ) (k i : ℕ) :
    i ∈ local_extrema arr k ExtremaMode.max ↔
      (k ≤ i ∧ i + k < arr.length ∧
        ∀ j, i - k ≤ j → j ≤ i + k → arr.getD j 0 ≤ arr.getD i 0) := by
  unfold local_extrema
  split
  · rename_i hshort
    simp only [List.not_mem_nil, false_iff]
    rintro ⟨hk, hlen, -⟩
    omega
  · rename_i hlong
    rw [List.mem_filter, List.mem_range'_1]
    constructor
    · rintro ⟨⟨hk, hup⟩, hpred⟩
      have h2 : i + k < arr.length := by omega
      refine ⟨hk, h2, ?_⟩
      have := of_decide_eq_true hpred
      exact (center_eq_npMax_iff arr i k hk h2).mp this
    · rintro ⟨hk, h2, hall⟩
      refine ⟨⟨hk, by omega⟩, ?_⟩
      exact decide_eq_true ((center_eq_npMax_iff arr i k hk h2).mpr hall)

theorem mem_local_extrema_min_iff (arr : List ℚ) (k i : ℕ) :
    i ∈ local_extrema arr k ExtremaMode.min ↔
      (k ≤ i ∧ i + k < arr.length ∧
        ∀ j, i - k ≤ j → j ≤ i + k → arr.getD i 0 ≤ arr.getD j 0) := by
  unfold local_extrema
  split
  · rename_i hshort
    simp only [List.not_mem_nil, false_iff]
    rintro ⟨hk, hlen, -⟩
    omega
  · rename_i hlong
    rw [List.mem_filter, List.mem_range'_1]
    constructor
    · rintro ⟨⟨hk, hup⟩, hpred⟩
      have h2 : i + k < arr.length := by omega
      refine ⟨hk, h2, ?_⟩
      have := of_decide_eq_true hpred
      exact (center_eq_npMin_iff arr i k hk h2).mp this
    · rintro ⟨hk, h2, hall⟩
      refine ⟨⟨hk, by omega⟩, ?_⟩
      exact decide_eq_true ((center_eq_npMin_iff arr i k hk h2).mpr hall)

/-- C10: the extrema locator (identical in both modules) returns a strictly
ascending index list that contains exactly the positions `i` with
`k ≤ i < length − k` whose value is the extremum of the closed window
`[i − k, i + k]` — when several positions tie on the extremum value, all of them
are recorded — and an array shorter than `2k + 1` yields the empty list. -/
theorem local_extrema_characterized (arr : List ℚ) (k : ℕ) :
    (∀ m, local_extrema_plus arr k m = local_extrema arr k m) ∧
    ((local_extrema arr k ExtremaMode.max).Sorted (· < ·) ∧
      (∀ i, i ∈ local_extrema arr k ExtremaMode.max ↔
        (k ≤ i ∧ i + k < arr.length ∧
          ∀ j, i - k ≤ j → j ≤ i + k → arr.getD j 0 ≤ arr.getD i 0)) ∧
      (arr.length < 2 * k + 1 → local_extrema arr k ExtremaMode.max = [])) ∧
    ((local_extrema arr k ExtremaMode.min).Sorted (· < ·) ∧
      (∀ i, i ∈ local_extrema arr k ExtremaMode.min ↔
        (k ≤ i ∧ i + k < arr.length ∧
          ∀ j, i - k ≤ j → j ≤ i + k → arr.getD i 0 ≤ arr.getD j 0)) ∧
      (arr.length < 2 * k + 1 → local_extrema arr k ExtremaMode.min = [])) := by
  refine ⟨fun m => rfl, ⟨local_extrema_sorted arr k _, mem_local_extrema_max_iff arr k, ?_⟩,
    ⟨local_extrema_sorted arr k _, mem_local_extrema_min_iff arr k, ?_⟩⟩
  · intro hshort
    unfold local_extrema
    rw [if_pos (by omega)]
  · intro hshort
    unfold local_extrema
    rw [if_pos (by omega)]

/-- Witness: on the tent [1, 3, 2] with half-window 1 the peak position 1 is
located (applying the characterization's completeness direction), and a
too-short array gives the empty list. -/
theorem local_extrema_characterized_witness :
    1 ∈ local_extrema [1, 3, 2] 1 ExtremaMode.max ∧
    local_extrema [1, 3] 1 ExtremaMode.max = [] :=
  ⟨((local_extrema_characterized [1, 3, 2] 1).2.1.2.1 1).mpr
    ⟨by norm_num, by norm_num, by
      intro j h1 h2
      interval_cases j <;> norm_num [List.getD]⟩,
   (local_extrema_characterized [1, 3] 1).2.1.2.2 (by norm_num)⟩

/-! ### C2 — the sell rule is unreachable on bars that fail the buy gauntlet -/

/-- C2: failing input for the sell rule.  The machine is Holding, the history (10
bars) exceeds the sell-EMA period (3), and the last bar is a downside EMA cross
(previous close 10 ≥ previous EMA 10, current close 5 < current EMA 7.5) — by
the claim a Sell must be emitted and the state return to Armed.  The code emits
nothing and stays Holding: the bar fails Stage 2, and the sell check is nested
behind the buy gauntlet, so it is never reached. -/
theorem vcp_sell_missed_on_stage2_fail :
    emaCross 3 c2Closes = true ∧
    3 < c2Frame.len ∧
    vcpIndicatorNext c2Params c2Frame true = (true, ⟨0, none, none, 0, none, none⟩) := by
  refine ⟨?_, by decide, ?_⟩ <;> with_unfolding_all rfl

/-! ### C3 — buy emission while Holding -/

/-- C3 amended: the indicator's line outputs — in particular the Buy signal line —
do not depend on the `_vcp_bought` (Holding) flag at all: a bar that passes the
gauntlet emits a Buy signal whether or not the machine is already Holding, so
re-entry is not suppressed by the indicator (de-duplication is left to the
consuming strategy's position check). -/
theorem vcp_indicator_output_ignores_holding (p : VCPIndicatorParams) (bars : Frame)
    (b b' : Bool) :
    (vcpIndicatorNext p bars b).2 = (vcpIndicatorNext p bars b').2 := by
  unfold vcpIndicatorNext
  dsimp only
  split_ifs <;> rfl

theorem vcpIndicatorNext_buy_of_stage2 (p : VCPIndicatorParams) (bars : Frame)
    (bought : Bool)
    (hn : ¬ (bars.len < max (max (p.ma_200_period + p.ma_trend_period)
      (p.local_extrema_order * 2 + 1)) p.ema_sell_period))
    (hs : vcpStage2Check (compute_vcp_features
      (frameTail (min bars.len p.lookback_period) bars) p.toVCPParams) = true)
    (hth : p.progress_threshold ≤ 0)
    (hema : p.ema_sell_period < bars.len)
    (hx : emaCross p.ema_sell_period bars.close = false) :
    (vcpIndicatorNext p bars bought).1 = true ∧
    (vcpIndicatorNext p bars bought).2.vcp_signal = some (bars.close.getLastD 0) ∧
    (vcpIndicatorNext p bars bought).2.vcp_sell_signal = none := by
  unfold vcpIndicatorNext
  dsimp only
  rw [if_neg hn, hs]
  rw [if_neg (by simp : ¬ (true = false))]
  have hpos : (0 : ℚ) ≤
      ((List.countP id (vcpConditions p true (compute_vcp_features
        (frameTail (min bars.len p.lookback_period) bars) p.toVCPParams)) : ℕ) : ℚ) /
        (((vcpConditions p true (compute_vcp_features
          (frameTail (min bars.len p.lookback_period) bars) p.toVCPParams)).length : ℕ) : ℚ) := by
    positivity
  rw [if_neg (not_lt.mpr (le_trans hth hpos))]
  rw [if_neg (by
    rintro ⟨-, h1⟩
    have := le_trans h1 hth
    norm_num at this)]
  rw [if_pos ⟨rfl, hema⟩, hx]
  rw [if_neg (by simp : ¬ (false = true))]
  exact ⟨rfl, rfl, rfl⟩

theorem drop_rep_append_le {α : Type} (n m : ℕ) (a : α) (l : List α) (h : m ≤ n) :
    (List.replicate n a ++ l).drop m = List.replicate (n - m) a ++ l := by
  rw [List.drop_append_of_le_length (by simp [h]), List.drop_replicate]

theorem drop_rep_append_ge {α : Type} (n m : ℕ) (a : α) (l : List α) (h : n ≤ m) :
    (List.replicate n a ++ l).drop m = l.drop (m - n) := by
  have he : m = (List.replicate n a).length + (m - n) := by
    simp only [List.length_replicate]
    omega
  rw [he, List.drop_append]
  congr 1
  simp only [List.length_replicate]
  omega

theorem take_rep_append_le {α : Type} (n m : ℕ) (a : α) (l : List α) (h : m ≤ n) :
    (List.replicate n a ++ l).take m = List.replicate m a := by
  rw [List.take_append_of_le_length (by simp [h]), List.take_replicate]
  congr 1
  omega

theorem getElem?_rep_append_ge {α : Type} (n m : ℕ) (a : α) (l : List α) (h : n ≤ m) :
    (List.replicate n a ++ l)[m]? = l[m - n]? := by
  rw [List.getElem?_append_right (by simp [h])]
  simp

theorem npMin_rep_append (n : ℕ) (a : ℚ) (l : List ℚ) (h : 1 ≤ n) :
    npMin (List.replicate n a ++ l) = List.foldl min a l := by
  obtain ⟨m, rfl⟩ : ∃ m, n = m + 1 := ⟨n - 1, by omega⟩
  rw [List.replicate_succ, List.cons_append, npMin, List.foldl_append, foldl_min_replicate]
  rcases Nat.eq_zero_or_pos m with hm | hm
  · simp [hm]
  · rw [if_neg (by omega)]
    rw [min_self]

theorem npMax_rep_append (n : ℕ) (a : ℚ) (l : List ℚ) (h : 1 ≤ n) :
    npMax (List.replicate n a ++ l) = List.foldl max a l := by
  obtain ⟨m, rfl⟩ : ∃ m, n = m + 1 := ⟨n - 1, by omega⟩
  rw [List.replicate_succ, List.cons_append, npMax, List.foldl_append, foldl_max_replicate]
  rcases Nat.eq_zero_or_pos m with hm | hm
  · simp [hm]
  · rw [if_neg (by omega)]
    rw [max_self]

theorem emaSeries_go_const (al c : ℚ) (n : ℕ) (l : List ℚ) :
    emaSeries.go al c (List.replicate n c ++ l) = List.replicate n c ++ emaSeries.go al c l := by
  induction n with
  | zero => simp
  | succ m ih =>
    rw [List.replicate_succ, List.cons_append, emaSeries.go]
    have he : c + (c - c) * al = c := by ring
    rw [he, ih]
    simp [List.replicate_succ]

theorem iloc_neg_eq_getElem? {α : Type} (l : List α) (i : Int) (h1 : i < 0)
    (h2 : i.natAbs ≤ l.length) :
    iloc l i = l[l.length - i.natAbs]? := by
  unfold iloc
  rw [if_neg (by omega), if_pos h2]

set_option maxRecDepth 8000 in
theorem c3_stage2_frame1 : vcpStage2Check (compute_vcp_features
    (frameTail (min c3Frame.len c3Params.lookback_period) c3Frame)
    c3Params.toVCPParams) = true := by
  have hlen1 : c3Frame.len = 252 := by decide
  have hclen : c3Closes.length = 252 := by decide
  have hguard1 : ¬ (c3Frame.len < max (c3Params.toVCPParams.ma_200_period +
      c3Params.toVCPParams.ma_trend_period)
      (c3Params.toVCPParams.local_extrema_order * 2 + 1)) := by
    rw [hlen1]; decide
  have hlb : min c3Frame.len c3Params.toVCPParams.lookback_period = 252 := by
    rw [hlen1]; decide
  have hfc : c3Frame.close = c3Closes := rfl
  have htailc : tailN 252 c3Closes = c3Closes :=
    tailN_of_length_le _ _ hclen.le
  have htailv : tailN 252 (List.replicate 252 (1 : ℚ)) = List.replicate 252 1 :=
    tailN_of_length_le _ _ (by simp)
  have hmin1 : min c3Frame.len c3Params.lookback_period = 252 := by
    rw [hlen1]; decide
  have hft1 : frameTail (min c3Frame.len c3Params.lookback_period) c3Frame = c3Frame := by
    rw [hmin1]
    show frameTail 252 ⟨c3Closes, c3Closes, c3Closes, List.replicate 252 1, none, none⟩ =
      ⟨c3Closes, c3Closes, c3Closes, List.replicate 252 1, none, none⟩
    unfold frameTail
    dsimp only
    rw [htailc, htailv]
  have hfields : (compute_vcp_features c3Frame c3Params.toVCPParams).close_last = some 14 ∧
      (compute_vcp_features c3Frame c3Params.toVCPParams).ma_50 = some 13 ∧
      (compute_vcp_features c3Frame c3Params.toVCPParams).ma_150 = some 12 ∧
      (compute_vcp_features c3Frame c3Params.toVCPParams).ma_200 = some (23/2) ∧
      (compute_vcp_features c3Frame c3Params.toVCPParams).ma_200_slope = some 1 ∧
      (compute_vcp_features c3Frame c3Params.toVCPParams).week_52_low = some 10 ∧
      (compute_vcp_features c3Frame c3Params.toVCPParams).week_52_high = some 14 := by
    unfold compute_vcp_features
    rw [if_neg hguard1]
    dsimp only
    rw [hlb, hfc, htailc]
    refine ⟨?_, ?_, ?_, ?_, ?_, ?_, ?_⟩
    · rw [c3Closes]
      rw [show List.replicate 250 (10:ℚ) ++ [12, 14] =
        (List.replicate 250 (10:ℚ) ++ [12]) ++ [14] by simp]
      rw [List.getLast?_concat]
    · rw [show c3Params.toVCPParams.ma_50_period = 2 from rfl]
      rw [rollingMean_last 2 c3Closes (by rw [hclen]; norm_num)]
      rw [hclen]
      rw [if_pos (by norm_num)]
      rw [show c3Closes.drop (252 - 2) = [12, 14] from by
        rw [c3Closes, show (252 - 2 : ℕ) = 250 from rfl,
          drop_rep_append_le 250 250 _ _ (le_refl 250)]
        simp]
      norm_num [List.foldl_cons, List.foldl_nil, List.take_succ_cons]
    · rw [show c3Params.toVCPParams.ma_150_period = 3 from rfl]
      rw [rollingMean_last 3 c3Closes (by rw [hclen]; norm_num)]
      rw [hclen]
      rw [if_pos (by norm_num)]
      rw [show c3Closes.drop (252 - 3) = [10, 12, 14] from by
        rw [c3Closes, show (252 - 3 : ℕ) = 249 from rfl,
          drop_rep_append_le 250 249 _ _ (by norm_num)]
        rw [show (250 - 249 : ℕ) = 1 from rfl]
        rfl]
      norm_num [List.foldl_cons, List.foldl_nil, List.take_succ_cons]
    · rw [show c3Params.toVCPParams.ma_200_period = 4 from rfl]
      rw [rollingMean_last 4 c3Closes (by rw [hclen]; norm_num)]
      rw [hclen]
      rw [if_pos (by norm_num)]
      rw [show c3Closes.drop (252 - 4) = [10, 10, 12, 14] from by
        rw [c3Closes, show (252 - 4 : ℕ) = 248 from rfl,
          drop_rep_append_le 250 248 _ _ (by norm_num)]
        rw [show (250 - 248 : ℕ) = 2 from rfl]
        rfl]
      norm_num [List.foldl_cons, List.foldl_nil, List.take_succ_cons]
    · rw [show c3Params.toVCPParams.ma_200_period = 4 from rfl]
      rw [show c3Params.toVCPParams.ma_trend_period = 2 from rfl]
      rw [rollingMean_iloc_neg 4 c3Closes 2 (by norm_num) (by rw [hclen]; norm_num)]
      dsimp only
      rw [hclen]
      rw [if_pos (by norm_num)]
      rw [rollingMean_last 4 c3Closes (by rw [hclen]; norm_num)]
      rw [hclen]
      rw [if_pos (by norm_num)]
      rw [show c3Closes.drop (252 - 4) = [10, 10, 12, 14] from by
        rw [c3Closes, show (252 - 4 : ℕ) = 248 from rfl,
          drop_rep_append_le 250 248 _ _ (by norm_num)]
        rw [show (250 - 248 : ℕ) = 2 from rfl]
        rfl]
      rw [show c3Closes.drop (252 - 2 + 1 - 4) = [10, 10, 10, 12, 14] from by
        rw [c3Closes, show (252 - 2 + 1 - 4 : ℕ) = 247 from rfl,
          drop_rep_append_le 250 247 _ _ (by norm_num)]
        rw [show (250 - 247 : ℕ) = 3 from rfl]
        rfl]
      rw [oSub]
      norm_num [List.foldl_cons, List.foldl_nil, List.take_succ_cons]
    · rw [show c3Frame.low = c3Closes from rfl, htailc]
      rw [rollingMin_last 252 c3Closes (by rw [hclen]; norm_num)]
      rw [hclen]
      rw [if_pos (by norm_num)]
      rw [show (252 - 252 : ℕ) = 0 from rfl, List.drop_zero]
      rw [List.take_of_length_le hclen.le]
      rw [c3Closes, npMin_rep_append 250 _ _ (by norm_num)]
      rw [List.foldl_cons, List.foldl_cons, List.foldl_nil]
      rw [min_eq_left (by norm_num : (10:ℚ) ≤ 12), min_eq_left (by norm_num : (10:ℚ) ≤ 14)]
    · rw [show c3Frame.high = c3Closes from rfl, htailc]
      rw [rollingMax_last 252 c3Closes (by rw [hclen]; norm_num)]
      rw [hclen]
      rw [if_pos (by norm_num)]
      rw [show (252 - 252 : ℕ) = 0 from rfl, List.drop_zero]
      rw [List.take_of_length_le hclen.le]
      rw [c3Closes, npMax_rep_append 250 _ _ (by norm_num)]
      rw [List.foldl_cons, List.foldl_cons, List.foldl_nil]
      rw [max_eq_right (by norm_num : (10:ℚ) ≤ 12), max_eq_right (by norm_num : (12:ℚ) ≤ 14)]
  rw [hft1]
  obtain ⟨h1, h2, h3, h4, h5, h6, h7⟩ := hfields
  rw [vcpStage2Check, h1, h2, h3, h4, h5, h6, h7]
  with_unfolding_all rfl

set_option maxRecDepth 8000 in
theorem c3_stage2_frame2 : vcpStage2Check (compute_vcp_features
    (frameTail (min c3Frame2.len c3Params.lookback_period) c3Frame2)
    c3Params.toVCPParams) = true := by
  have ht2len : c3Tail2.length = 252 := by decide
  have hmin2 : min c3Frame2.len c3Params.lookback_period = 252 := by decide
  have htailc2 : tailN 252 c3Closes2 = c3Tail2 := by
    unfold tailN
    rw [show c3Closes2.length - 252 = 1 from by decide]
    rw [show c3Closes2 = List.replicate 250 (10:ℚ) ++ [12, 14, 16] from rfl]
    rw [drop_rep_append_le 250 1 _ _ (by norm_num)]
    rfl
  have htailv2 : tailN 252 (List.replicate 253 (1 : ℚ)) = List.replicate 252 1 := by
    unfold tailN
    rw [show (List.replicate 253 (1:ℚ)).length - 252 = 1 from by simp]
    rw [List.drop_replicate]
  have hft2 : frameTail (min c3Frame2.len c3Params.lookback_period) c3Frame2 =
      c3TailFrame2 := by
    rw [hmin2]
    show frameTail 252 ⟨c3Closes2, c3Closes2, c3Closes2, List.replicate 253 1, none, none⟩ =
      c3TailFrame2
    unfold frameTail
    dsimp only
    rw [htailc2, htailv2]
    rfl
  have hguard2 : ¬ (c3TailFrame2.len < max (c3Params.toVCPParams.ma_200_period +
      c3Params.toVCPParams.ma_trend_period)
      (c3Params.toVCPParams.local_extrema_order * 2 + 1)) := by decide
  have hlb2 : min c3TailFrame2.len c3Params.toVCPParams.lookback_period = 252 := by decide
  have hfc2 : c3TailFrame2.close = c3Tail2 := rfl
  have htt : tailN 252 c3Tail2 = c3Tail2 := tailN_of_length_le _ _ ht2len.le
  have hfields2 : (compute_vcp_features c3TailFrame2 c3Params.toVCPParams).close_last =
        some 16 ∧
      (compute_vcp_features c3TailFrame2 c3Params.toVCPParams).ma_50 = some 15 ∧
      (compute_vcp_features c3TailFrame2 c3Params.toVCPParams).ma_150 = some 14 ∧
      (compute_vcp_features c3TailFrame2 c3Params.toVCPParams).ma_200 = some 13 ∧
      (compute_vcp_features c3TailFrame2 c3Params.toVCPParams).ma_200_slope = some (3/2) ∧
      (compute_vcp_features c3TailFrame2 c3Params.toVCPParams).week_52_low = some 10 ∧
      (compute_vcp_features c3TailFrame2 c3Params.toVCPParams).week_52_high = some 16 := by
    unfold compute_vcp_features
    rw [if_neg hguard2]
    dsimp only
    rw [hlb2, hfc2, htt]
    refine ⟨?_, ?_, ?_, ?_, ?_, ?_, ?_⟩
    · rw [show c3Tail2 = (List.replicate 249 (10:ℚ) ++ [12, 14]) ++ [16] from by
        rw [c3Tail2]; simp]
      rw [List.getLast?_concat]
    · rw [show c3Params.toVCPParams.ma_50_period = 2 from rfl]
      rw [rollingMean_last 2 c3Tail2 (by rw [ht2len]; norm_num)]
      rw [ht2len]
      rw [if_pos (by norm_num)]
      rw [show c3Tail2.drop (252 - 2) = [14, 16] from by
        rw [c3Tail2, show (252 - 2 : ℕ) = 250 from rfl,
          drop_rep_append_ge 249 250 _ _ (by norm_num)]
        rfl]
      norm_num [List.foldl_cons, List.foldl_nil, List.take_succ_cons]
    · rw [show c3Params.toVCPParams.ma_150_period = 3 from rfl]
      rw [rollingMean_last 3 c3Tail2 (by rw [ht2len]; norm_num)]
      rw [ht2len]
      rw [if_pos (by norm_num)]
      rw [show c3Tail2.drop (252 - 3) = [12, 14, 16] from by
        rw [c3Tail2, show (252 - 3 : ℕ) = 249 from rfl,
          drop_rep_append_ge 249 249 _ _ (le_refl 249)]
        rfl]
      norm_num [List.foldl_cons, List.foldl_nil, List.take_succ_cons]
    · rw [show c3Params.toVCPParams.ma_200_period = 4 from rfl]
      rw [rollingMean_last 4 c3Tail2 (by rw [ht2len]; norm_num)]
      rw [ht2len]
      rw [if_pos (by norm_num)]
      rw [show c3Tail2.drop (252 - 4) = [10, 12, 14, 16] from by
        rw [c3Tail2, show (252 - 4 : ℕ) = 248 from rfl,
          drop_rep_append_le 249 248 _ _ (by norm_num)]
        rw [show (249 - 248 : ℕ) = 1 from rfl]
        rfl]
      norm_num [List.foldl_cons, List.foldl_nil, List.take_succ_cons]
    · rw [show c3Params.toVCPParams.ma_200_period = 4 from rfl]
      rw [show c3Params.toVCPParams.ma_trend_period = 2 from rfl]
      rw [rollingMean_iloc_neg 4 c3Tail2 2 (by norm_num) (by rw [ht2len]; norm_num)]
      dsimp only
      rw [ht2len]
      rw [if_pos (by norm_num)]
      rw [rollingMean_last 4 c3Tail2 (by rw [ht2len]; norm_num)]
      rw [ht2len]
      rw [if_pos (by norm_num)]
      rw [show c3Tail2.drop (252 - 4) = [10, 12, 14, 16] from by
        rw [c3Tail2, show (252 - 4 : ℕ) = 248 from rfl,
          drop_rep_append_le 249 248 _ _ (by norm_num)]
        rw [show (249 - 248 : ℕ) = 1 from rfl]
        rfl]
      rw [show c3Tail2.drop (252 - 2 + 1 - 4) = [10, 10, 12, 14, 16] from by
        rw [c3Tail2, show (252 - 2 + 1 - 4 : ℕ) = 247 from rfl,
          drop_rep_append_le 249 247 _ _ (by norm_num)]
        rw [show (249 - 247 : ℕ) = 2 from rfl]
        rfl]
      rw [oSub]
      norm_num [List.foldl_cons, List.foldl_nil, List.take_succ_cons]
    · rw [show c3TailFrame2.low = c3Tail2 from rfl, htt]
      rw [rollingMin_last 252 c3Tail2 (by rw [ht2len]; norm_num)]
      rw [ht2len]
      rw [if_pos (by norm_num)]
      rw [show (252 - 252 : ℕ) = 0 from rfl, List.drop_zero]
      rw [List.take_of_length_le ht2len.le]
      rw [c3Tail2, npMin_rep_append 249 _ _ (by norm_num)]
      rw [List.foldl_cons, List.foldl_cons, List.foldl_cons, List.foldl_nil]
      rw [min_eq_left (by norm_num : (10:ℚ) ≤ 12), min_eq_left (by norm_num : (10:ℚ) ≤ 14),
        min_eq_left (by norm_num : (10:ℚ) ≤ 16)]
    · rw [show c3TailFrame2.high = c3Tail2 from rfl, htt]
      rw [rollingMax_last 252 c3Tail2 (by rw [ht2len]; norm_num)]
      rw [ht2len]
      rw [if_pos (by norm_num)]
      rw [show (252 - 252 : ℕ) = 0 from rfl, List.drop_zero]
      rw [List.take_of_length_le ht2len.le]
      rw [c3Tail2, npMax_rep_append 249 _ _ (by norm_num)]
      rw [List.foldl_cons, List.foldl_cons, List.foldl_cons, List.foldl_nil]
      rw [max_eq_right (by norm_num : (10:ℚ) ≤ 12), max_eq_right (by norm_num : (12:ℚ) ≤ 14),
        max_eq_right (by norm_num : (14:ℚ) ≤ 16)]
  rw [hft2]
  obtain ⟨h1, h2, h3, h4, h5, h6, h7⟩ := hfields2
  rw [vcpStage2Check, h1, h2, h3, h4, h5, h6, h7]
  with_unfolding_all rfl

set_option maxRecDepth 8000 in
/-- C3 counterexample: two consecutive bars of the same stream both pass the
gauntlet (in a loose mode with progress threshold 0).  At the first the machine
buys and enters Holding; at the next bar — with the Holding flag set and no EMA
downside cross, so no Sell clears the state — the code emits a second Buy signal
(at close 16) rather than suppressing it, contradicting the claim that no further
Buy is emitted while Holding. -/
theorem vcp_rebuy_while_holding :
    (vcpIndicatorNext c3Params c3Frame false).1 = true ∧
    (vcpIndicatorNext c3Params c3Frame false).2.vcp_signal = some 14 ∧
    (vcpIndicatorNext c3Params c3Frame2 true).1 = true ∧
    (vcpIndicatorNext c3Params c3Frame2 true).2.vcp_signal = some 16 ∧
    (vcpIndicatorNext c3Params c3Frame2 true).2.vcp_sell_signal = none := by
  have h1 := vcpIndicatorNext_buy_of_stage2 c3Params c3Frame false
    (by decide) c3_stage2_frame1 (le_refl 0) (by decide)
    (by with_unfolding_all rfl)
  have h2 := vcpIndicatorNext_buy_of_stage2 c3Params c3Frame2 true
    (by decide) c3_stage2_frame2 (le_refl 0) (by decide)
    (by with_unfolding_all rfl)
  refine ⟨h1.1, ?_, h2.1, ?_, h2.2.2⟩
  · rw [h1.2.1]
    rw [show c3Frame.close.getLastD 0 = 14 from by with_unfolding_all rfl]
  · rw [h2.2.1]
    rw [show c3Frame2.close.getLastD 0 = 16 from by with_unfolding_all rfl]
